import Mathlib

/-!
Verification of the WFAP credit-line negotiation system against its
natural-language specification.

The development is a shallow embedding of the Python sources:

* Python `float` arithmetic is modelled by exact rational arithmetic (`ℚ`).
  All constants appearing in the negotiation and scoring code are short
  decimal literals, so the rational model coincides with the intended
  real-number semantics of the code.
* `dict.get(k, default)` is modelled by `Option` fields read with `getD`.
* Python's builtin `round(x, 2)` (round-half-to-even to two decimal places)
  is modelled by `pyRound2` below.
* Python's `list.sort(key=...)` is a stable sort; it is modelled by
  `List.insertionSort`, which Mathlib proves stable
  (`List.sublist_insertionSort`).  Any two stable sorts of the same total
  preorder agree, so this is a faithful model.
* JSON values are modelled by the inductive type `Json`; `json.loads` by the
  fueled parser `parseJson`, `json.dumps` by `dumps`.
* The out-of-process pieces of the broker (JWT validation, which depends on
  wall-clock time and the PyJWT library, and the HTTP transport) enter the
  model as explicit function arguments of the broker's entry points, exactly
  at the places the Python code calls `auth_manager.validate_token` and
  `httpx` — the code under verification is everything around those calls.
-/

namespace WFAP

/-! ## Rounding: Python's `round(x, 2)` -/

/-- Floor of a rational, computed from the numerator and denominator.
Agrees with `Int.floor` (`ratFloor_eq_floor`). -/
def ratFloor (q : ℚ) : ℤ := q.num / (q.den : ℤ)

/-- Round a rational to the nearest integer, ties going to the even
neighbour — the rounding mode of Python's builtin `round`. -/
def roundHalfEven (x : ℚ) : ℤ :=
  if x - (ratFloor x : ℚ) < 1/2 then ratFloor x
  else if 1/2 < x - (ratFloor x : ℚ) then ratFloor x + 1
  else if ratFloor x % 2 = 0 then ratFloor x else ratFloor x + 1

/-- Python's `round(x, 2)`: round half-to-even at two decimal places. -/
def pyRound2 (x : ℚ) : ℚ := (roundHalfEven (x * 100) : ℚ) / 100

/-! ## Bank counter-offer policy engines

`wells_fargo_agent/agent.py`, `chase_bank/agent.py` (line-of-credit variant)
and `boa_agent/agent.py` (term-loan variant), method `generate_counter_offer`.
Only the numeric negotiation logic is modelled; the surrounding `BankOffer`
record also carries fixed strings, fixed ESG constants and a freshly drawn
`uuid` offer id, which are irrelevant to the negotiation-arithmetic claims.
-/

/-- The fields of the original line-of-credit offer that
`generate_counter_offer` reads with `dict.get(key, default)`.  A `none`
field models an absent key.  (A `None`/empty original offer is modelled by
passing `none` for the whole record, matching `if original_offer:`.) -/
structure LocOriginalOffer where
  interest_rate : Option ℚ := none
  draw_period_months : Option ℚ := none
  repayment_period_months : Option ℚ := none
  approved_credit_limit : Option ℚ := none
  origination_fee : Option ℚ := none
deriving DecidableEq

/-- The negotiable numeric fields of a line-of-credit counter-offer. -/
structure LocCounterTerms where
  interest_rate : ℚ
  draw_period_months : ℚ
  repayment_period_months : ℚ
  approved_credit_limit : ℚ
  origination_fee : ℚ
deriving DecidableEq

/-- The fields of the original term-loan offer read by Bank of America's
`generate_counter_offer`. -/
structure TermOriginalOffer where
  interest_rate : Option ℚ := none
  term_months : Option ℚ := none
  approved_amount : Option ℚ := none
  origination_fee : Option ℚ := none
deriving DecidableEq

/-- The negotiable numeric fields of a term-loan counter-offer. -/
structure TermCounterTerms where
  interest_rate : ℚ
  term_months : ℚ
  approved_amount : ℚ
  origination_fee : ℚ
deriving DecidableEq

namespace WellsFargoAgent

/-- `WellsFargoAgent.generate_counter_offer` (wells_fargo_agent/agent.py,
lines 493–592), numeric core.  Policy constants: max 0.5 rate reduction,
draw period clamped to [6, 18], repayment period to [12, 30], credit limit
capped at original + 20 %, origination fee floor at 75 % of original. -/
def generate_counter_offer (requested_rate requested_draw_period
    requested_repayment_period requested_credit_limit
    requested_origination_fee : ℚ)
    (original_offer : Option LocOriginalOffer) : LocCounterTerms :=
  let original_rate := match original_offer with
    | some o => o.interest_rate.getD 6.5
    | none => 6.5
  let original_draw_period := match original_offer with
    | some o => o.draw_period_months.getD 12
    | none => 12
  let original_repayment_period := match original_offer with
    | some o => o.repayment_period_months.getD 24
    | none => 24
  let original_amount := match original_offer with
    | some o => o.approved_credit_limit.getD 1000000
    | none => 1000000
  let original_fee := match original_offer with
    | some o => o.origination_fee.getD 5000
    | none => 5000
  let max_rate_reduction : ℚ := 0.5
  let counter_rate := max requested_rate (original_rate - max_rate_reduction)
  let counter_draw_period :=
    if requested_draw_period > 0 then max 6 (min 18 requested_draw_period)
    else original_draw_period
  let counter_repayment_period :=
    if requested_repayment_period > 0 then max 12 (min 30 requested_repayment_period)
    else original_repayment_period
  let counter_amount :=
    if requested_credit_limit > 0 then
      min requested_credit_limit (original_amount + original_amount * 0.2)
    else original_amount
  let max_fee_reduction := original_fee * 0.25
  let counter_fee := max requested_origination_fee (original_fee - max_fee_reduction)
  { interest_rate := counter_rate
    draw_period_months := counter_draw_period
    repayment_period_months := counter_repayment_period
    approved_credit_limit := counter_amount
    origination_fee := counter_fee }

end WellsFargoAgent

namespace ChaseBankAgent

/-- `ChaseBankAgent.generate_counter_offer` (chase_bank/agent.py, lines
499–598), numeric core.  Policy constants: max 0.6 rate reduction, draw
period clamped to [6, 21], repayment period to [12, 36], credit limit
capped at original + 25 %, origination fee floor at 65 % of original. -/
def generate_counter_offer (requested_rate requested_draw_period
    requested_repayment_period requested_credit_limit
    requested_origination_fee : ℚ)
    (original_offer : Option LocOriginalOffer) : LocCounterTerms :=
  let original_rate := match original_offer with
    | some o => o.interest_rate.getD 6.0
    | none => 6.0
  let original_draw_period := match original_offer with
    | some o => o.draw_period_months.getD 12
    | none => 12
  let original_repayment_period := match original_offer with
    | some o => o.repayment_period_months.getD 24
    | none => 24
  let original_amount := match original_offer with
    | some o => o.approved_credit_limit.getD 1000000
    | none => 1000000
  let original_fee := match original_offer with
    | some o => o.origination_fee.getD 4000
    | none => 4000
  let max_rate_reduction : ℚ := 0.6
  let counter_rate := max requested_rate (original_rate - max_rate_reduction)
  let counter_draw_period :=
    if requested_draw_period > 0 then max 6 (min 21 requested_draw_period)
    else original_draw_period
  let counter_repayment_period :=
    if requested_repayment_period > 0 then max 12 (min 36 requested_repayment_period)
    else original_repayment_period
  let counter_amount :=
    if requested_credit_limit > 0 then
      min requested_credit_limit (original_amount + original_amount * 0.25)
    else original_amount
  let max_fee_reduction := original_fee * 0.35
  let counter_fee := max requested_origination_fee (original_fee - max_fee_reduction)
  { interest_rate := counter_rate
    draw_period_months := counter_draw_period
    repayment_period_months := counter_repayment_period
    approved_credit_limit := counter_amount
    origination_fee := counter_fee }

end ChaseBankAgent

namespace BankOfAmericaAgent

/-- `BankOfAmericaAgent.generate_counter_offer` (boa_agent/agent.py, lines
553–640), numeric core.  Policy constants: max 0.75 rate reduction, term
clamped to [24, 96] months, amount capped at original + 30 %, origination
fee floor at 60 % of original. -/
def generate_counter_offer (requested_rate requested_term requested_amount
    requested_origination_fee : ℚ)
    (original_offer : Option TermOriginalOffer) : TermCounterTerms :=
  let original_rate := match original_offer with
    | some o => o.interest_rate.getD 6.2
    | none => 6.2
  let original_term := match original_offer with
    | some o => o.term_months.getD 60
    | none => 60
  let original_amount := match original_offer with
    | some o => o.approved_amount.getD 1000000
    | none => 1000000
  let original_fee := match original_offer with
    | some o => o.origination_fee.getD 4500
    | none => 4500
  let max_rate_reduction : ℚ := 0.75
  let counter_rate := max requested_rate (original_rate - max_rate_reduction)
  let counter_term :=
    if requested_term > 0 then max 24 (min 96 requested_term)
    else original_term
  let counter_amount :=
    if requested_amount > 0 then
      min requested_amount (original_amount + original_amount * 0.3)
    else original_amount
  let max_fee_reduction := original_fee * 0.4
  let counter_fee := max requested_origination_fee (original_fee - max_fee_reduction)
  { interest_rate := counter_rate
    term_months := counter_term
    approved_amount := counter_amount
    origination_fee := counter_fee }

end BankOfAmericaAgent

end WFAP

namespace WFAP

/-! ## Company offer-evaluation engine

`company_agent/agent.py`, methods `evaluate_offers` (lines 745–868) and
`select_best_offer` (lines 870–...).  The offers arrive as JSON dicts; the
fields read with `offer.get(key, default)` are modelled as `Option` fields.
-/

/-- The `esg_impact` sub-dict of an offer as read by `evaluate_offers`. -/
structure EsgImpactDict where
  overall_esg_score : Option ℚ := none
  carbon_footprint_reduction : Option ℚ := none
deriving DecidableEq

/-- The fields of a received offer dict that `evaluate_offers` reads.
An absent key is `none` (the code supplies the default via `.get`). -/
structure OfferDict where
  interest_rate : Option ℚ := none
  esg_impact : Option EsgImpactDict := none
  approved_credit_limit : Option ℚ := none
  draw_fee_percentage : Option ℚ := none
  unused_credit_fee : Option ℚ := none
  origination_fee : Option ℚ := none
  prepayment_penalty : Option Bool := none
  collateral_required : Option Bool := none
  personal_guarantee_required : Option Bool := none
  bank_name : Option String := none
deriving DecidableEq

/-- The metrics `evaluate_offers` merges into each offer dict
(each stored through Python's `round(·, 2)`, modelled by `pyRound2`). -/
structure EvaluatedOffer where
  offer : OfferDict
  carbon_adjusted_rate : ℚ
  total_cost_of_borrowing : ℚ
  effective_rate : ℚ
  esg_adjusted_effective_rate : ℚ
  composite_score : ℚ
  esg_impact_score : ℚ
  risk_penalty : ℚ
  annual_interest : ℚ
  annual_draw_fees : ℚ
  annual_unused_fee : ℚ
  total_annual_cost : ℚ
  utilized_amount : ℚ
  unused_amount : ℚ
deriving DecidableEq

namespace CompanyAgent

/-- The per-offer metric computation of `evaluate_offers`
(company_agent/agent.py, lines 762–837). -/
def scoreOffer (o : OfferDict) : EvaluatedOffer :=
  let base_rate := o.interest_rate.getD 0
  let esg_score := match o.esg_impact with
    | some e => e.overall_esg_score.getD 0
    | none => 0
  let carbon_reduction := match o.esg_impact with
    | some e => e.carbon_footprint_reduction.getD 0
    | none => 0
  let approved_credit_limit := o.approved_credit_limit.getD 0
  let draw_fee_percentage := o.draw_fee_percentage.getD 0
  let unused_credit_fee := o.unused_credit_fee.getD 0
  let origination_fee := o.origination_fee.getD 0
  let prepayment_penalty := o.prepayment_penalty.getD false
  let collateral_required := o.collateral_required.getD false
  let personal_guarantee_required := o.personal_guarantee_required.getD false
  let carbon_adjusted_rate := base_rate - esg_score * 0.15
  let assumed_utilization : ℚ := 0.7
  let utilized_amount := approved_credit_limit * assumed_utilization
  let unused_amount := approved_credit_limit * (1 - assumed_utilization)
  let annual_interest := utilized_amount * (base_rate / 100)
  let annual_draw_fees := utilized_amount * (draw_fee_percentage / 100) * 4
  let annual_unused_fee := unused_amount * (unused_credit_fee / 100)
  let total_annual_cost := annual_interest + annual_draw_fees + annual_unused_fee
  let total_cost_of_borrowing := total_annual_cost + origination_fee
  let effective_rate :=
    if approved_credit_limit > 0 then total_annual_cost / approved_credit_limit * 100 else 0
  let esg_adjusted_effective_rate := effective_rate
  let risk_penalty :=
    (if collateral_required then (0.5 : ℚ) else 0) +
    (if personal_guarantee_required then (0.3 : ℚ) else 0) +
    (if prepayment_penalty then (0.2 : ℚ) else 0)
  let composite_score := esg_adjusted_effective_rate + risk_penalty
  let esg_impact_score := esg_score + carbon_reduction / 10
  { offer := o
    carbon_adjusted_rate := pyRound2 carbon_adjusted_rate
    total_cost_of_borrowing := pyRound2 total_cost_of_borrowing
    effective_rate := pyRound2 effective_rate
    esg_adjusted_effective_rate := pyRound2 esg_adjusted_effective_rate
    composite_score := pyRound2 composite_score
    esg_impact_score := pyRound2 esg_impact_score
    risk_penalty := pyRound2 risk_penalty
    annual_interest := pyRound2 annual_interest
    annual_draw_fees := pyRound2 annual_draw_fees
    annual_unused_fee := pyRound2 annual_unused_fee
    total_annual_cost := pyRound2 total_annual_cost
    utilized_amount := pyRound2 utilized_amount
    unused_amount := pyRound2 unused_amount }

/-- The sort key of `evaluate_offers`:
`key=lambda x: (x["composite_score"], -x["esg_impact_score"])`, i.e.
ascending composite score, ties broken by descending ESG impact score.
(The `.get` defaults 999 and 0 in the lambda are dead code: every
evaluated offer carries both fields.) -/
def evalLE (x y : EvaluatedOffer) : Prop :=
  x.composite_score < y.composite_score ∨
    (x.composite_score = y.composite_score ∧ y.esg_impact_score ≤ x.esg_impact_score)

instance : DecidableRel evalLE := fun x y => by unfold evalLE; infer_instance

/-- Strict version of the sort key order. -/
def evalLT (x y : EvaluatedOffer) : Prop :=
  x.composite_score < y.composite_score ∨
    (x.composite_score = y.composite_score ∧ y.esg_impact_score < x.esg_impact_score)

instance : DecidableRel evalLT := fun x y => by unfold evalLT; infer_instance

instance : IsTotal EvaluatedOffer evalLE := by
  constructor
  intro a b
  unfold evalLE
  rcases lt_trichotomy a.composite_score b.composite_score with h | h | h
  · exact Or.inl (Or.inl h)
  · rcases le_total b.esg_impact_score a.esg_impact_score with h2 | h2
    · exact Or.inl (Or.inr ⟨h, h2⟩)
    · exact Or.inr (Or.inr ⟨h.symm, h2⟩)
  · exact Or.inr (Or.inl h)

instance : IsTrans EvaluatedOffer evalLE := by
  constructor
  intro a b c hab hbc
  unfold evalLE at *
  rcases hab with h1 | ⟨h1, h1e⟩ <;> rcases hbc with h2 | ⟨h2, h2e⟩
  · exact Or.inl (lt_trans h1 h2)
  · exact Or.inl (h2 ▸ h1)
  · exact Or.inl (h1 ▸ h2)
  · exact Or.inr ⟨h1.trans h2, le_trans h2e h1e⟩

/-- `evaluate_offers` (company_agent/agent.py, lines 745–868): score every
offer, then sort ascending by composite score with ties broken by
descending ESG impact score.  Python's `list.sort` is a stable sort; the
stable `List.insertionSort` is its model (any two stable sorts of one
total preorder agree). -/
def evaluate_offers (offers : List OfferDict) : List EvaluatedOffer :=
  List.insertionSort evalLE (offers.map scoreOffer)

/-- `select_best_offer` (company_agent/agent.py, lines 870 ff.): the first
element of the evaluated list; `none` models the "no offers available"
error return. -/
def select_best_offer (evaluated : List EvaluatedOffer) : Option EvaluatedOffer :=
  evaluated.head?

end CompanyAgent

/-! ## JSON values

`json.loads` / `json.dumps` as used by the broker and the signature codec.
JSON numbers are modelled as rationals (Python's int/float distinction is
not tracked); objects keep their entries in insertion order, as Python
dicts do.
-/

inductive Json where
  | null
  | bool (b : Bool)
  | num (q : ℚ)
  | str (s : String)
  | arr (elems : List Json)
  | obj (entries : List (String × Json))

/-- Last-binding-wins association lookup: `json.loads` builds a `dict`, in
which a later duplicate key overwrites an earlier one. -/
def jsonAssocGet : List (String × Json) → String → Option Json
  | [], _ => none
  | (k, v) :: rest, key =>
    match jsonAssocGet rest key with
    | some r => some r
    | none => if k = key then some v else none

/-- `dict.get(key)` on a decoded JSON value (`none` on a non-object). -/
def Json.get : Json → String → Option Json
  | .obj kvs, key => jsonAssocGet kvs key
  | _, _ => none

/-- Python truthiness of a decoded JSON value. -/
def jsonTruthy : Json → Bool
  | .null => false
  | .bool b => b
  | .num q => decide (q ≠ 0)
  | .str s => decide (s ≠ "")
  | .arr xs => !xs.isEmpty
  | .obj kvs => !kvs.isEmpty

/-- Whether an optional JSON value is the given string (used for the
`payload.get(k) == "literal"` comparisons in the broker). -/
def jsonIsStr : Option Json → String → Bool
  | some (.str t), s => t == s
  | _, _ => false

/-! ## JSON parsing (`json.loads`)

A fueled recursive-descent parser over the character list; the fuel (the
input length plus one) strictly exceeds the nesting depth, so it never runs
out on real input.  Deviations from CPython's parser in corners no claim
touches: lone-surrogate `\\u` escapes become U+0000 (Lean `Char` cannot hold
a surrogate), surrogate pairs are not recombined, and number syntax is
slightly more permissive (leading zeros are accepted).
-/

def skipWs : List Char → List Char
  | c :: cs => if c = ' ' ∨ c = '\t' ∨ c = '\n' ∨ c = '\r' then skipWs cs else c :: cs
  | [] => []

def isDigitChar (c : Char) : Bool := decide (48 ≤ c.toNat ∧ c.toNat ≤ 57)

def takeDigits : List Char → List Nat × List Char
  | c :: cs =>
    if isDigitChar c then
      let (ds, rest) := takeDigits cs
      ((c.toNat - 48) :: ds, rest)
    else ([], c :: cs)
  | [] => ([], [])

def digitsToNat (ds : List Nat) : Nat := ds.foldl (fun a d => a * 10 + d) 0

def hexVal (c : Char) : Option Nat :=
  if 48 ≤ c.toNat ∧ c.toNat ≤ 57 then some (c.toNat - 48)
  else if 97 ≤ c.toNat ∧ c.toNat ≤ 102 then some (c.toNat - 87)
  else if 65 ≤ c.toNat ∧ c.toNat ≤ 70 then some (c.toNat - 55)
  else none

/-- Body of a JSON string after the opening quote; returns the decoded
characters and the input after the closing quote. -/
def parseStringChars : List Char → Option (List Char × List Char)
  | [] => none
  | c :: cs =>
    if c = '"' then some ([], cs)
    else if c = '\\' then
      match cs with
      | [] => none
      | 'u' :: h1 :: h2 :: h3 :: h4 :: cs2 =>
        match hexVal h1, hexVal h2, hexVal h3, hexVal h4 with
        | some a, some b, some c3, some d =>
          match parseStringChars cs2 with
          | some (out, rest) => some (Char.ofNat (a * 4096 + b * 256 + c3 * 16 + d) :: out, rest)
          | none => none
        | _, _, _, _ => none
      | e :: cs2 =>
        let dec : Option Char :=
          if e = '"' then some '"'
          else if e = '\\' then some '\\'
          else if e = '/' then some '/'
          else if e = 'n' then some '\n'
          else if e = 't' then some '\t'
          else if e = 'r' then some '\r'
          else if e = 'b' then some (Char.ofNat 8)
          else if e = 'f' then some (Char.ofNat 12)
          else none
        match dec with
        | some ch =>
          match parseStringChars cs2 with
          | some (out, rest) => some (ch :: out, rest)
          | none => none
        | none => none
    else
      match parseStringChars cs with
      | some (out, rest) => some (c :: out, rest)
      | none => none

def pow10Rat (e : Int) : ℚ :=
  if 0 ≤ e then ((10 : ℚ) ^ e.toNat) else 1 / ((10 : ℚ) ^ (-e).toNat)

/-- A JSON number: `-? digits ('.' digits)? ([eE] [+-]? digits)?`. -/
def parseNumber (cs : List Char) : Option (ℚ × List Char) :=
  let (sign, cs1) : ℚ × List Char :=
    match cs with
    | '-' :: rest => (-1, rest)
    | _ => (1, cs)
  match takeDigits cs1 with
  | ([], _) => none
  | (ids, cs2) =>
    let intPart : ℚ := (digitsToNat ids : ℚ)
    let (frac, cs3) : ℚ × List Char :=
      match cs2 with
      | '.' :: cs2a =>
        match takeDigits cs2a with
        | ([], _) => ((0 : ℚ), cs2)
        | (fds, cs2b) => ((digitsToNat fds : ℚ) / (10 : ℚ) ^ fds.length, cs2b)
      | _ => ((0 : ℚ), cs2)
    match cs3 with
    | 'e' :: cs3a =>
      match cs3a with
      | '-' :: cs3b =>
        match takeDigits cs3b with
        | ([], _) => none
        | (eds, cs4) => some (sign * (intPart + frac) * pow10Rat (-(digitsToNat eds : Int)), cs4)
      | '+' :: cs3b =>
        match takeDigits cs3b with
        | ([], _) => none
        | (eds, cs4) => some (sign * (intPart + frac) * pow10Rat (digitsToNat eds : Int), cs4)
      | _ =>
        match takeDigits cs3a with
        | ([], _) => none
        | (eds, cs4) => some (sign * (intPart + frac) * pow10Rat (digitsToNat eds : Int), cs4)
    | 'E' :: cs3a =>
      match cs3a with
      | '-' :: cs3b =>
        match takeDigits cs3b with
        | ([], _) => none
        | (eds, cs4) => some (sign * (intPart + frac) * pow10Rat (-(digitsToNat eds : Int)), cs4)
      | '+' :: cs3b =>
        match takeDigits cs3b with
        | ([], _) => none
        | (eds, cs4) => some (sign * (intPart + frac) * pow10Rat (digitsToNat eds : Int), cs4)
      | _ =>
        match takeDigits cs3a with
        | ([], _) => none
        | (eds, cs4) => some (sign * (intPart + frac) * pow10Rat (digitsToNat eds : Int), cs4)
    | _ => some (sign * (intPart + frac), cs3)

mutual

def parseValue : Nat → List Char → Option (Json × List Char)
  | 0, _ => none
  | fuel + 1, cs =>
    match skipWs cs with
    | [] => none
    | c :: rest =>
      if c = '{' then
        match skipWs rest with
        | '}' :: r2 => some (.obj [], r2)
        | other => match parseObjRest fuel other with
          | some (kvs, r2) => some (.obj kvs, r2)
          | none => none
      else if c = '[' then
        match skipWs rest with
        | ']' :: r2 => some (.arr [], r2)
        | other => match parseArrRest fuel other with
          | some (vs, r2) => some (.arr vs, r2)
          | none => none
      else if c = '"' then
        match parseStringChars rest with
        | some (out, r2) => some (.str (String.mk out), r2)
        | none => none
      else
        match c :: rest with
        | 't' :: 'r' :: 'u' :: 'e' :: r2 => some (.bool true, r2)
        | 'f' :: 'a' :: 'l' :: 's' :: 'e' :: r2 => some (.bool false, r2)
        | 'n' :: 'u' :: 'l' :: 'l' :: r2 => some (.null, r2)
        | other =>
          match parseNumber other with
          | some (q, r2) => some (.num q, r2)
          | none => none

def parseArrRest : Nat → List Char → Option (List Json × List Char)
  | 0, _ => none
  | fuel + 1, cs =>
    match parseValue fuel cs with
    | none => none
    | some (v, r) =>
      match skipWs r with
      | ']' :: r2 => some ([v], r2)
      | ',' :: r2 =>
        match parseArrRest fuel r2 with
        | some (vs, r3) => some (v :: vs, r3)
        | none => none
      | _ => none

def parseObjRest : Nat → List Char → Option (List (String × Json) × List Char)
  | 0, _ => none
  | fuel + 1, cs =>
    match skipWs cs with
    | '"' :: r =>
      match parseStringChars r with
      | none => none
      | some (key, r2) =>
        match skipWs r2 with
        | ':' :: r3 =>
          match parseValue fuel r3 with
          | none => none
          | some (v, r4) =>
            match skipWs r4 with
            | '}' :: r5 => some ([(String.mk key, v)], r5)
            | ',' :: r5 =>
              match parseObjRest fuel r5 with
              | some (kvs, r6) => some ((String.mk key, v) :: kvs, r6)
              | none => none
            | _ => none
        | _ => none
    | _ => none

end

/-- `json.loads`: parse a complete JSON document (trailing whitespace
allowed, trailing garbage rejected). -/
def parseJson (s : String) : Option Json :=
  match parseValue (s.data.length + 1) s.data with
  | some (v, rest) => if (skipWs rest).isEmpty then some v else none
  | none => none

/-! ## JSON serialization (`json.dumps`)

Two variants are used by the system: the signature codec serializes with
`sort_keys=True, separators=(',', ':')` (canonical form), the broker with
the defaults (insertion order, `', '` and `': '`).  Serialization recurses
with a `sizeOf` fuel, which strictly dominates every recursion path, so it
never runs out.  String escaping follows `ensure_ascii=True`.
-/

def hexDigitChar (n : Nat) : Char :=
  if n < 10 then Char.ofNat (48 + n) else Char.ofNat (87 + n)

def hex4 (n : Nat) : List Char :=
  [hexDigitChar (n / 4096 % 16), hexDigitChar (n / 256 % 16),
   hexDigitChar (n / 16 % 16), hexDigitChar (n % 16)]

def escapeChar (c : Char) : List Char :=
  if c = '"' then ['\\', '"']
  else if c = '\\' then ['\\', '\\']
  else if c = '\n' then ['\\', 'n']
  else if c = '\t' then ['\\', 't']
  else if c = '\r' then ['\\', 'r']
  else if c.toNat = 8 then ['\\', 'b']
  else if c.toNat = 12 then ['\\', 'f']
  else if c.toNat < 32 ∨ 126 < c.toNat then
    if c.toNat < 65536 then '\\' :: 'u' :: hex4 c.toNat
    else
      '\\' :: 'u' :: hex4 (55296 + (c.toNat - 65536) / 1024) ++
        '\\' :: 'u' :: hex4 (56320 + (c.toNat - 65536) % 1024)
  else [c]

def escapeString (cs : List Char) : List Char := (cs.map escapeChar).flatten

/-- `p`-adic multiplicity with fuel (only called with fuel = n ≥ the
multiplicity). -/
def multiplicityOf (p : Nat) : Nat → Nat → Nat
  | 0, _ => 0
  | fuel + 1, n => if 1 < n ∧ n % p = 0 then 1 + multiplicityOf p fuel (n / p) else 0

/-- `k` decimal digits of `m < 10^k`, most significant first. -/
def natToPaddedDigits : Nat → Nat → List Char
  | 0, _ => []
  | k + 1, m => natToPaddedDigits k (m / 10) ++ [hexDigitChar (m % 10)]

/-- Decimal rendering of a JSON number, matching Python's `repr` on the
ints and finite-decimal floats the system produces (`6.5` ↦ `"6.5"`).
A rational whose denominator has a prime factor other than 2 or 5 is not
the value of any Python float literal; it gets a fallback rendering. -/
def renderNum (q : ℚ) : List Char :=
  if q.den = 1 then (toString q.num).data
  else
    let a := multiplicityOf 2 q.den q.den
    let b := multiplicityOf 5 q.den q.den
    let k := max a b
    if q.den = 2 ^ a * 5 ^ b then
      let m := q.num * ((10 : ℤ) ^ k) / (q.den : ℤ)
      (if m < 0 then ['-'] else []) ++
        (toString (m.natAbs / 10 ^ k)).data ++
        '.' :: natToPaddedDigits k (m.natAbs % 10 ^ k)
    else (toString q.num).data ++ '/' :: (toString q.den).data

mutual

/-- A structural size of a JSON value, used as serialization fuel; it
strictly dominates every recursion path of `dumpsV`. -/
def jsonSize : Json → Nat
  | .null => 1
  | .bool _ => 1
  | .num _ => 1
  | .str _ => 1
  | .arr xs => 1 + jsonSizeList xs
  | .obj kvs => 1 + jsonSizeEntries kvs

def jsonSizeList : List Json → Nat
  | [] => 1
  | x :: xs => 1 + jsonSize x + jsonSizeList xs

def jsonSizeEntries : List (String × Json) → Nat
  | [] => 1
  | (_, v) :: kvs => 1 + jsonSize v + jsonSizeEntries kvs

end

/-- `sorted(dict.items())` ordering: by key, ascending. -/
def keyLE (a b : String × Json) : Prop := a.1 ≤ b.1

instance : DecidableRel keyLE := fun a b => by unfold keyLE; infer_instance

mutual

def dumpsV : Nat → Bool → Json → List Char
  | 0, _, _ => []
  | _ + 1, _, .null => ['n', 'u', 'l', 'l']
  | _ + 1, _, .bool true => ['t', 'r', 'u', 'e']
  | _ + 1, _, .bool false => ['f', 'a', 'l', 's', 'e']
  | _ + 1, _, .num q => renderNum q
  | _ + 1, _, .str s => '"' :: escapeString s.data ++ ['"']
  | fuel + 1, canon, .arr xs => '[' :: dumpsElems fuel canon xs ++ [']']
  | fuel + 1, canon, .obj kvs =>
    '{' :: dumpsEntries fuel canon
      (if canon then List.insertionSort keyLE kvs else kvs) ++ ['}']

def dumpsElems : Nat → Bool → List Json → List Char
  | 0, _, _ => []
  | _ + 1, _, [] => []
  | fuel + 1, canon, [x] => dumpsV fuel canon x
  | fuel + 1, canon, x :: xs =>
    dumpsV fuel canon x ++ (if canon then [','] else [',', ' ']) ++
      dumpsElems fuel canon xs

def dumpsEntries : Nat → Bool → List (String × Json) → List Char
  | 0, _, _ => []
  | _ + 1, _, [] => []
  | fuel + 1, canon, [(k, v)] =>
    '"' :: escapeString k.data ++ '"' ::
      (if canon then [':'] else [':', ' ']) ++ dumpsV fuel canon v
  | fuel + 1, canon, (k, v) :: kvs =>
    '"' :: escapeString k.data ++ '"' ::
      (if canon then [':'] else [':', ' ']) ++ dumpsV fuel canon v ++
      (if canon then [','] else [',', ' ']) ++ dumpsEntries fuel canon kvs

end

/-- `json.dumps(x)` with the default options, as the broker calls it. -/
def dumpsJson (j : Json) : String := String.mk (dumpsV (jsonSize j) false j)

/-- `json.dumps(x, sort_keys=True, separators=(',', ':'))`, the canonical
form the signature codec signs. -/
def dumpsCanonical (j : Json) : String := String.mk (dumpsV (jsonSize j) true j)

/-! ## SHA-256, HMAC and Base64

`hashlib.sha256`, `hmac.new(..., hashlib.sha256)` and `base64.b64encode`
as used by signature_utils.py, implemented from FIPS 180-4 / RFC 2104 /
RFC 4648 over byte lists (`List Nat`, each < 256), with 32-bit words as
`Nat` masked to 32 bits. -/

def mask32 (n : Nat) : Nat := n &&& 4294967295

def rotr32 (x n : Nat) : Nat := mask32 ((x >>> n) ||| (x <<< (32 - n)))

def sha256K : List Nat :=
  [1116352408, 1899447441, 3049323471, 3921009573, 961987163, 1508970993,
   2453635748, 2870763221, 3624381080, 310598401, 607225278, 1426881987,
   1925078388, 2162078206, 2614888103, 3248222580, 3835390401, 4022224774,
   264347078, 604807628, 770255983, 1249150122, 1555081692, 1996064986,
   2554220882, 2821834349, 2952996808, 3210313671, 3336571891, 3584528711,
   113926993, 338241895, 666307205, 773529912, 1294757372, 1396182291,
   1695183700, 1986661051, 2177026350, 2456956037, 2730485921, 2820302411,
   3259730800, 3345764771, 3516065817, 3600352804, 4094571909, 275423344,
   430227734, 506948616, 659060556, 883997877, 958139571, 1322822218,
   1537002063, 1747873779, 1955562222, 2024104815, 2227730452, 2361852424,
   2428436474, 2756734187, 3204031479, 3329325298]

structure Sha256State where
  a : Nat
  b : Nat
  c : Nat
  d : Nat
  e : Nat
  f : Nat
  g : Nat
  hh : Nat

def sha256Init : Sha256State :=
  ⟨1779033703, 3144134277, 1013904242, 2773480762,
   1359893119, 2600822924, 528734635, 1541459225⟩

/-- Message padding: `0x80`, zeros to 56 mod 64, the bit length as 8
big-endian bytes. -/
def sha256pad (msg : List Nat) : List Nat :=
  let L := msg.length
  let zeros := (56 + 64 - (L + 1) % 64) % 64
  msg ++ 128 :: List.replicate zeros 0 ++
    [mask32 ((8 * L) >>> 56) &&& 255, (8 * L) >>> 48 &&& 255,
     (8 * L) >>> 40 &&& 255, (8 * L) >>> 32 &&& 255, (8 * L) >>> 24 &&& 255,
     (8 * L) >>> 16 &&& 255, (8 * L) >>> 8 &&& 255, (8 * L) &&& 255]

def chunk64 : Nat → List Nat → List (List Nat)
  | 0, _ => []
  | _, [] => []
  | fuel + 1, l => l.take 64 :: chunk64 fuel (l.drop 64)

def bytesToWords : Nat → List Nat → List Nat
  | 0, _ => []
  | _, [] => []
  | fuel + 1, b1 :: b2 :: b3 :: b4 :: rest =>
    (b1 <<< 24 ||| b2 <<< 16 ||| b3 <<< 8 ||| b4) :: bytesToWords fuel rest
  | _ + 1, _ => []

def smallSigma0 (x : Nat) : Nat := rotr32 x 7 ^^^ rotr32 x 18 ^^^ (x >>> 3)

def smallSigma1 (x : Nat) : Nat := rotr32 x 17 ^^^ rotr32 x 19 ^^^ (x >>> 10)

/-- Extend the reversed 16-word schedule by `n` more words. -/
def extendSchedule : Nat → List Nat → List Nat
  | 0, rev => rev.reverse
  | n + 1, rev =>
    extendSchedule n
      (mask32 (smallSigma1 (rev.getD 1 0) + rev.getD 6 0 +
        smallSigma0 (rev.getD 14 0) + rev.getD 15 0) :: rev)

def compressStep (st : Sha256State) (kw : Nat × Nat) : Sha256State :=
  let s1 := rotr32 st.e 6 ^^^ rotr32 st.e 11 ^^^ rotr32 st.e 25
  let ch := (st.e &&& st.f) ^^^ ((st.e ^^^ 4294967295) &&& st.g)
  let t1 := mask32 (st.hh + s1 + ch + kw.1 + kw.2)
  let s0 := rotr32 st.a 2 ^^^ rotr32 st.a 13 ^^^ rotr32 st.a 22
  let maj := (st.a &&& st.b) ^^^ (st.a &&& st.c) ^^^ (st.b &&& st.c)
  let t2 := mask32 (s0 + maj)
  ⟨mask32 (t1 + t2), st.a, st.b, st.c, mask32 (st.d + t1), st.e, st.f, st.g⟩

def compressBlock (st0 : Sha256State) (block : List Nat) : Sha256State :=
  let w16 := bytesToWords 16 block
  let w := extendSchedule 48 w16.reverse
  let st := (sha256K.zip w).foldl compressStep st0
  ⟨mask32 (st0.a + st.a), mask32 (st0.b + st.b), mask32 (st0.c + st.c),
   mask32 (st0.d + st.d), mask32 (st0.e + st.e), mask32 (st0.f + st.f),
   mask32 (st0.g + st.g), mask32 (st0.hh + st.hh)⟩

def wordBytes (w : Nat) : List Nat :=
  [w >>> 24 &&& 255, w >>> 16 &&& 255, w >>> 8 &&& 255, w &&& 255]

/-- `hashlib.sha256(msg).digest()` over a byte list. -/
def sha256 (msg : List Nat) : List Nat :=
  let padded := sha256pad msg
  let st := (chunk64 (padded.length + 1) padded).foldl compressBlock sha256Init
  ([st.a, st.b, st.c, st.d, st.e, st.f, st.g, st.hh].map wordBytes).flatten

/-- UTF-8 encoding of one character. -/
def utf8Bytes (c : Char) : List Nat :=
  let n := c.toNat
  if n < 128 then [n]
  else if n < 2048 then [192 + n / 64, 128 + n % 64]
  else if n < 65536 then [224 + n / 4096, 128 + n / 64 % 64, 128 + n % 64]
  else [240 + n / 262144, 128 + n / 4096 % 64, 128 + n / 64 % 64, 128 + n % 64]

/-- `s.encode('utf-8')`. -/
def strUtf8 (s : String) : List Nat := (s.data.map utf8Bytes).flatten

/-- `hmac.new(key, msg, hashlib.sha256).digest()` (RFC 2104, block size
64). -/
def hmacSha256 (key msg : List Nat) : List Nat :=
  let k1 := if 64 < key.length then sha256 key else key
  let k2 := k1 ++ List.replicate (64 - k1.length) 0
  let ipad := k2.map (fun b => b ^^^ 54)
  let opad := k2.map (fun b => b ^^^ 92)
  sha256 (opad ++ sha256 (ipad ++ msg))

def base64Alphabet : List Char :=
  "ABCDEFGHIJKLMNOPQRSTUVWXYZabcdefghijklmnopqrstuvwxyz0123456789+/".data

def b64Char (n : Nat) : Char := base64Alphabet.getD n 'A'

def b64Groups : Nat → List Nat → List Char
  | 0, _ => []
  | _, [] => []
  | _ + 1, [b1] =>
    [b64Char (b1 >>> 2), b64Char ((b1 &&& 3) <<< 4), '=', '=']
  | _ + 1, [b1, b2] =>
    [b64Char (b1 >>> 2), b64Char ((b1 &&& 3) <<< 4 ||| b2 >>> 4),
     b64Char ((b2 &&& 15) <<< 2), '=']
  | fuel + 1, b1 :: b2 :: b3 :: rest =>
    b64Char (b1 >>> 2) :: b64Char ((b1 &&& 3) <<< 4 ||| b2 >>> 4) ::
      b64Char ((b2 &&& 15) <<< 2 ||| b3 >>> 6) :: b64Char (b3 &&& 63) ::
      b64Groups fuel rest

/-- `base64.b64encode(bs).decode('utf-8')`. -/
def base64Encode (bs : List Nat) : String := String.mk (b64Groups (bs.length + 1) bs)

/-! ## Signature codec

signature_utils.py: `generate_signature` and `validate_signature`.  The
payload is a JSON-serializable dict, modelled as a `Json` value; for the
`Json` values of this model serialization is total, so the `except` path
of `generate_signature` (which returns `""` for non-serializable input) is
unreachable. -/

namespace SignatureUtils

/-- `generate_signature` (signature_utils.py, lines 13–48): serialize the
payload canonically (`sort_keys=True, separators=(',',':')`), HMAC-SHA256
it under the UTF-8 secret, base64-encode the digest. -/
def generate_signature (message_content : Json) (secret_key : String) : String :=
  base64Encode (hmacSha256 (strUtf8 secret_key) (strUtf8 (dumpsCanonical message_content)))

/-- `validate_signature` (signature_utils.py, lines 51–86): recompute the
expected signature and compare with `hmac.compare_digest` — a
constant-time string equality. -/
def validate_signature (message_content : Json) (signature : String)
    (secret_key : String) : Bool :=
  signature == generate_signature message_content secret_key

end SignatureUtils

/-! ## Broker router

`broker_agent/broker_executor.py`, class `BrokerAgentExecutor`.  The two
out-of-process dependencies — `auth_manager.validate_token` (PyJWT + wall
clock) and the `httpx` POST — are passed in as fields of `BrokerEnv`;
everything else is modelled from the code.  The audit log is modelled by
its list of action names.
-/

/-- Characters-level `startswith`. -/
def listStartsWith : List Char → List Char → Bool
  | [], _ => true
  | _ :: _, [] => false
  | p :: ps, c :: cs => p == c && listStartsWith ps cs

/-- `s.startswith(p)`. -/
def strStartsWith (s p : String) : Bool := listStartsWith p.data s.data

def asciiLowerChar (c : Char) : Char :=
  if 65 ≤ c.toNat ∧ c.toNat ≤ 90 then Char.ofNat (c.toNat + 32) else c

/-- `s.lower()` (ASCII; every bank name in the system is ASCII). -/
def strLower (s : String) : String := String.mk (s.data.map asciiLowerChar)

/-- The payload of a validated JWT, as used by the broker: only its
`client_id` is read. -/
structure AuthPayload where
  client_id : String
deriving DecidableEq

/-- Result of one `httpx` POST: an HTTP response whose body decoded as
JSON, or a raised exception (connect error, timeout, non-JSON body, ...)
with its message. -/
inductive PostResult where
  | resp (status_code : Nat) (body : Json)
  | exn (message : String)

/-- The broker's environment: the token validator
(`auth_manager.validate_token`), the HTTP transport, the wall clock
(`datetime.utcnow().isoformat()`), and the access token
`auth_manager.generate_access_token` mints for the broker itself (the
broker's own credentials are hard-coded and always valid, so minting
always succeeds). -/
structure BrokerEnv where
  validate_token : String → Option AuthPayload
  post : String → Json → PostResult
  now : String
  broker_token : String

/-- `BrokerAgentExecutor._extract_auth_from_message` (lines 148–207):
parse the message as JSON; require a dict with a truthy string
`auth_token` of the form `Bearer <token>`; validate the token; reject a
truthy `client_id` that differs from the token's.  Every failure — parse
error, missing/malformed token, failed validation, client-id mismatch, or
a type error from a non-string field — returns `none`. -/
def extract_auth_from_message (validate_token : String → Option AuthPayload)
    (message_content : String) : Option AuthPayload :=
  match parseJson message_content with
  | none => none
  | some j =>
    match j with
    | .obj _ =>
      match j.get "auth_token" with
      | some (.str s) =>
        if s = "" then none
        else if !strStartsWith s "Bearer " then none
        else
          match validate_token (String.mk (s.data.drop 7)) with
          | none => none
          | some payload =>
            match j.get "client_id" with
            | some cid =>
              if jsonTruthy cid then
                match cid with
                | .str c => if payload.client_id = c then some payload else none
                | _ => none
              else some payload
            | none => some payload
      | some _ => none
      | none => none
    | _ => none

/-- One element of the `responses` list built by the routing methods. -/
structure BankResponseEntry where
  bank : String
  status : String
  response : Option Json
  error : Option String

/-- What a routing method produced: the response entries, the endpoints
actually POSTed to, and the audit actions appended. -/
structure RouteOutcome where
  responses : List BankResponseEntry
  contacted : List String
  audit : List String

/-- `self.bank_endpoints` (broker_executor.py, lines 34–38). -/
def bank_endpoints : List (String × String) :=
  [("wells-fargo", "http://localhost:8001"),
   ("bank-of-america", "http://localhost:8002"),
   ("chase-bank", "http://localhost:8003")]

/-- First-match association lookup (a Python dict literal without
duplicate keys). -/
def assocGet : List (String × String) → String → Option String
  | [], _ => none
  | (k, v) :: rest, key => if k = key then some v else assocGet rest key

/-- The `bank_endpoint_map` normalization table of
`_route_negotiation_to_bank` (lines 407–414). -/
def bank_endpoint_map : List (String × String) :=
  [("wells fargo", "wells-fargo"), ("wells-fargo", "wells-fargo"),
   ("bank of america", "bank-of-america"), ("bank-of-america", "bank-of-america"),
   ("chase bank", "chase-bank"), ("chase-bank", "chase-bank")]

/-- Resolution of a negotiation's bank name to an endpoint URL:
normalize via `bank_endpoint_map` (defaulting to the lower-cased name
itself), then look the key up in `bank_endpoints`. -/
def resolve_bank_endpoint (bank_name : String) : Option String :=
  assocGet bank_endpoints
    ((assocGet bank_endpoint_map (strLower bank_name)).getD (strLower bank_name))

/-- The `authenticated_bank_message` / `authenticated_negotiation_message`
dict the broker sends to a bank (lines 227–235 and 454–462). -/
def authenticated_message (env : BrokerEnv) (broker_token : Option String)
    (message_type : String) (data : Json) (target_bank : String) : Json :=
  .obj [("auth_token", match broker_token with
          | some t => .str ("Bearer " ++ t)
          | none => .null),
        ("client_id", .str "broker-server"),
        ("message_type", .str message_type),
        ("data", data),
        ("timestamp", .str env.now),
        ("source", .str "broker"),
        ("target_bank", .str target_bank)]

/-- `_route_to_banks` for a single bank: build the authenticated message
(`json.loads(message_content) if message_content else {}` — a parse
failure raises inside the `try`, producing an error entry without a POST),
POST it, and classify the outcome by status code. -/
def route_to_one_bank (env : BrokerEnv) (message_content : String)
    (broker_token : Option String) (wrap : Json → String → Json)
    (message_type : String) (bank endpoint : String) : RouteOutcome :=
  let dataJson : Option Json :=
    if message_content = "" then some (.obj [])
    else parseJson message_content
  match dataJson with
  | none =>
    { responses := [⟨bank, "error", none, some "Expecting value"⟩],
      contacted := [], audit := ["bank_routing_exception"] }
  | some data =>
    let msg := authenticated_message env broker_token message_type data bank
    match env.post endpoint (wrap msg bank) with
    | .resp 200 body =>
      { responses := [⟨bank, "success", some body, none⟩],
        contacted := [endpoint], audit := ["bank_routing_success"] }
    | .resp code _ =>
      { responses := [⟨bank, "error", none, some ("HTTP " ++ toString code)⟩],
        contacted := [endpoint], audit := ["bank_routing_error"] }
    | .exn e =>
      { responses := [⟨bank, "error", none, some e⟩],
        contacted := [endpoint], audit := ["bank_routing_exception"] }

def emptyRoute : RouteOutcome := { responses := [], contacted := [], audit := [] }

def appendRoute (a b : RouteOutcome) : RouteOutcome :=
  { responses := a.responses ++ b.responses,
    contacted := a.contacted ++ b.contacted,
    audit := a.audit ++ b.audit }

/-- `BrokerAgentExecutor._route_to_banks` (lines 209–317): iterate over
every registered bank endpoint in table order, sending each the
authenticated credit-intent message.  `wrap` abstracts the JSON-RPC
request framing (its exact shape is irrelevant to the claims; the POSTed
endpoint list is what matters). -/
def route_to_banks (env : BrokerEnv) (message_content : String)
    (auth_payload : Option AuthPayload) (wrap : Json → String → Json) : RouteOutcome :=
  let broker_token := if auth_payload.isSome then some env.broker_token else none
  (bank_endpoints.map (fun be =>
    route_to_one_bank env message_content broker_token wrap "credit_intent" be.1 be.2)).foldl
    appendRoute emptyRoute

/-- The `try` block of `_route_negotiation_to_bank` (lines 451–518): build
the authenticated negotiation message (a parse failure of the payload
raises before the POST, yielding an error entry with no contact), POST it
to the one resolved endpoint, and return the reply as success whatever its
status code (an exception yields an error entry). -/
def negotiation_attempt (env : BrokerEnv) (endpoint bank_name negotiation_message : String)
    (auth_payload : Option AuthPayload) (wrap : Json → String → Json) : RouteOutcome :=
  match (if negotiation_message = "" then some (Json.obj [])
      else parseJson negotiation_message : Option Json) with
  | none =>
    { responses := [⟨bank_name, "error", none, some "Expecting value"⟩],
      contacted := [], audit := ["negotiation_routing", "negotiation_error"] }
  | some data =>
    match env.post endpoint (wrap (authenticated_message env
        (if auth_payload.isSome then some env.broker_token else none)
        "negotiation_request" data bank_name) bank_name) with
    | .resp _ body =>
      { responses := [⟨bank_name, "success", some body, none⟩],
        contacted := [endpoint],
        audit := ["negotiation_routing", "negotiation_response_received"] }
    | .exn e =>
      { responses := [⟨bank_name, "error", none, some e⟩],
        contacted := [endpoint],
        audit := ["negotiation_routing", "negotiation_error"] }

/-- `BrokerAgentExecutor._route_negotiation_to_bank` (lines 402–518):
resolve the bank name; an unknown name produces an error entry naming the
bank, with no POST and no audit append; otherwise the single resolved
endpoint is attempted. -/
def route_negotiation_to_bank (env : BrokerEnv) (negotiation_message : String)
    (bank_name : String) (auth_payload : Option AuthPayload)
    (wrap : Json → String → Json) : RouteOutcome :=
  match resolve_bank_endpoint bank_name with
  | none =>
    { responses := [⟨bank_name, "error", none, some ("Unknown bank: " ++ bank_name)⟩],
      contacted := [], audit := [] }
  | some endpoint =>
    negotiation_attempt env endpoint bank_name negotiation_message auth_payload wrap

/-- `BrokerAgentExecutor._route_message` (lines 374–400): parse the
authenticated message; a negotiation request (by `message_type` or by
`data.action`) is routed to the one named bank, anything else is broadcast
to all banks; any `JSONDecodeError`/`AttributeError` (non-dict message,
non-dict `data` when reading `.action`, non-string `bank_name` when
lower-casing) falls back to broadcasting the raw input. -/
def route_message (env : BrokerEnv) (user_input : String)
    (auth_payload : Option AuthPayload) (wrap : Json → String → Json) : RouteOutcome :=
  match parseJson user_input with
  | some (Json.obj kvs) =>
    let j := Json.obj kvs
    let actual := (j.get "data").getD j
    match actual with
    | Json.obj _ =>
      if jsonIsStr (j.get "message_type") "negotiation_request" ||
          jsonIsStr (actual.get "action") "negotiate_offer" then
        match actual.get "bank_name" with
        | some (.str s) =>
          route_negotiation_to_bank env (dumpsJson actual) (strLower s) auth_payload wrap
        | none =>
          route_negotiation_to_bank env (dumpsJson actual) "" auth_payload wrap
        | some _ => route_to_banks env user_input auth_payload wrap
      else route_to_banks env (dumpsJson actual) auth_payload wrap
    | _ => route_to_banks env user_input auth_payload wrap
  | some _ => route_to_banks env user_input auth_payload wrap
  | none => route_to_banks env user_input auth_payload wrap

/-- The aggregated result of `_aggregate_responses` (lines 319–372). -/
structure AggregatedResult where
  offers : List Json
  text_responses : List (String × String)
  errors : List (String × String)
  total_banks : Nat
  successful_responses : Nat
  failed_responses : Nat

/-- Classification of the text parts of one success response: a part of
kind `text` whose text parses as JSON becomes an offer, one that does not
becomes a text response.  (A non-string `text` value would raise a
`TypeError` into the response-level handler; no bank reply in the system
has one, and the completeness claim quantifies over string parts only.) -/
def classifyParts (bank : String) : List Json →
    List Json × List (String × String)
  | [] => ([], [])
  | part :: rest =>
    let (os, ts) := classifyParts bank rest
    if jsonIsStr (part.get "kind") "text" then
      match part.get "text" with
      | some (.str t) =>
        match parseJson t with
        | some offer => (offer :: os, ts)
        | none => (os, (bank, t) :: ts)
      | _ => (os, ts)
    else (os, ts)

/-- The contribution of one artifact: its `parts` list is scanned if the
artifact is truthy and has one. -/
def artifactParts (a : Json) : List Json :=
  if jsonTruthy a then
    match a.get "parts" with
    | some (.arr parts) => parts
    | _ => []
  else []

/-- The contribution of one response entry to the three buckets. -/
def entryContribution (r : BankResponseEntry) :
    List Json × List (String × String) × List (String × String) :=
  if r.status = "success" then
    match r.response with
    | some body =>
      match body.get "result" with
      | some res =>
        match res.get "artifacts" with
        | some (.arr artifacts) =>
          let (os, ts) := classifyParts r.bank (artifacts.map artifactParts).flatten
          (os, ts, [])
        | _ => ([], [], [])
      | none => ([], [], [])
    | none => ([], [], [])
  else ([], [], [(r.bank, r.error.getD "Unknown error")])

def aggregate_core : List BankResponseEntry →
    List Json × List (String × String) × List (String × String)
  | [] => ([], [], [])
  | r :: rest =>
    let (o1, t1, e1) := entryContribution r
    let (os, ts, es) := aggregate_core rest
    (o1 ++ os, t1 ++ ts, e1 ++ es)

/-- `BrokerAgentExecutor._aggregate_responses` (lines 319–372). -/
def aggregate_responses (rs : List BankResponseEntry) : AggregatedResult :=
  let (os, ts, es) := aggregate_core rs
  { offers := os, text_responses := ts, errors := es,
    total_banks := rs.length,
    successful_responses := os.length + ts.length,
    failed_responses := es.length }

/-- The terminal outcome of `BrokerAgentExecutor.execute`. -/
inductive ExecuteOutcome where
  | auth_endpoint_response
  | auth_error (message : String)
  | completed (result : AggregatedResult)

structure ExecuteResult where
  outcome : ExecuteOutcome
  contacted : List String
  audit : List String

/-- `BrokerAgentExecutor.execute` (lines 600–738): `/auth/...` inputs go
to the OAuth endpoints; otherwise authentication is extracted and
validated first — on failure the task terminates with an authentication
error artifact and a failed state, with no routing, no aggregation, no
POST, and no audit append; on success the message is routed, the bank
responses aggregated, and the task completed. -/
def execute (env : BrokerEnv) (user_input : String)
    (wrap : Json → String → Json) : ExecuteResult :=
  if strStartsWith user_input "/auth/" then
    { outcome := .auth_endpoint_response, contacted := [], audit := [] }
  else
    match extract_auth_from_message env.validate_token user_input with
    | none =>
      { outcome := .auth_error "Missing or invalid authentication token",
        contacted := [], audit := [] }
    | some payload =>
      let routed := route_message env user_input (some payload) wrap
      { outcome := .completed (aggregate_responses routed.responses),
        contacted := routed.contacted,
        audit := "message_received" :: routed.audit }

/-! ## Broadcast round shapes (for the completeness claim)

A bank endpoint's outcome in one broadcast round, as classified by the
spec: a parseable structured offer, a non-parseable free-text reply, or a
transport/HTTP failure.  `replyEntry` renders each as the response entry
`_route_to_banks` would have produced for it (one artifact with one text
part, the shape every bank executor emits). -/

inductive BankReplyCase where
  | offer (bank : String) (text : String)
  | clarification (bank : String) (text : String)
  | failure (bank : String) (err : String)

/-- The JSON-RPC body a bank reply with a single text part decodes to. -/
def rpcTextBody (s : String) : Json :=
  .obj [("result", .obj [("artifacts", .arr [.obj [("parts",
    .arr [.obj [("kind", .str "text"), ("text", .str s)]])]])])]

def replyEntry : BankReplyCase → BankResponseEntry
  | .offer b s => ⟨b, "success", some (rpcTextBody s), none⟩
  | .clarification b s => ⟨b, "success", some (rpcTextBody s), none⟩
  | .failure b e => ⟨b, "error", none, some e⟩

/-- The premise distinguishing the three cases: an offer's text parses as
JSON, a clarification's does not. -/
def replyOk : BankReplyCase → Prop
  | .offer _ s => (parseJson s).isSome = true
  | .clarification _ s => parseJson s = none
  | .failure _ _ => True

def isOfferReply : BankReplyCase → Bool
  | .offer _ _ => true
  | _ => false

def isClarificationReply : BankReplyCase → Bool
  | .clarification _ _ => true
  | _ => false

def isFailureReply : BankReplyCase → Bool
  | .failure _ _ => true
  | _ => false

/-- The spec's description of the effective rate (§4.4): "total annualized
cost of the offer, including amortized origination fee, expressed as a
percentage of approved principal".  Written from the spec's words, for
comparison with the code's `effective_rate`; the code's
`total_cost_of_borrowing = total_annual_cost + origination_fee` is its
annualized-cost-including-fee quantity. -/
def specEffectiveRate (o : OfferDict) : ℚ :=
  let approved_credit_limit := o.approved_credit_limit.getD 0
  let utilized_amount := approved_credit_limit * 0.7
  let unused_amount := approved_credit_limit * (1 - 0.7)
  let total_annual_cost := utilized_amount * (o.interest_rate.getD 0 / 100) +
    utilized_amount * (o.draw_fee_percentage.getD 0 / 100) * 4 +
    unused_amount * (o.unused_credit_fee.getD 0 / 100)
  (total_annual_cost + o.origination_fee.getD 0) / approved_credit_limit * 100

/-- A structured offer at 5 % on a 100 000 limit, from "Bank A". -/
def offerA : OfferDict :=
  { interest_rate := some 5, approved_credit_limit := some 100000,
    bank_name := some "Bank A" }

/-- Same terms as `offerA` (hence an identical sort key) but from "Bank X". -/
def offerX : OfferDict :=
  { interest_rate := some 5, approved_credit_limit := some 100000,
    bank_name := some "Bank X" }

/-- A strictly worse offer at 10 % on a 100 000 limit, from "Bank B". -/
def offerB : OfferDict :=
  { interest_rate := some 10, approved_credit_limit := some 100000,
    bank_name := some "Bank B" }

/-! ## Rounding lemmas -/

theorem ratFloor_eq_floor (q : ℚ) : ratFloor q = ⌊q⌋ := Rat.floor_def.symm

/-- `roundHalfEven` commutes with adding an even integer.  (For an odd
integer the tie-breaking case would flip parity, so evenness is needed.) -/
theorem roundHalfEven_add_even (x : ℚ) (n : ℤ) (hn : n % 2 = 0) :
    roundHalfEven (x + (n : ℚ)) = roundHalfEven x + n := by
  have hf : ratFloor (x + (n : ℚ)) = ratFloor x + n := by
    rw [ratFloor_eq_floor, ratFloor_eq_floor, Int.floor_add_int]
  have hr : x + (n : ℚ) - ((ratFloor x + n : ℤ) : ℚ) = x - ((ratFloor x : ℤ) : ℚ) := by
    push_cast
    ring
  have hpar : (ratFloor x + n) % 2 = ratFloor x % 2 := by
    omega
  unfold roundHalfEven
  rw [hf, hr, hpar]
  split_ifs <;> omega

theorem roundHalfEven_intCast (n : ℤ) : roundHalfEven (n : ℚ) = n := by
  have h : ratFloor (n : ℚ) = n := by
    rw [ratFloor_eq_floor]
    exact Int.floor_intCast n
  unfold roundHalfEven
  rw [h, sub_self]
  norm_num

/-- `pyRound2` fixes every integer number of cents. -/
theorem pyRound2_cents (n : ℤ) : pyRound2 ((n : ℚ) / 100) = (n : ℚ) / 100 := by
  unfold pyRound2
  rw [show (n : ℚ) / 100 * 100 = (n : ℚ) by ring, roundHalfEven_intCast]

/-- `pyRound2` commutes with adding an even number of cents. -/
theorem pyRound2_add_even_cents (x : ℚ) (n : ℤ) (hn : n % 2 = 0) :
    pyRound2 (x + (n : ℚ) / 100) = pyRound2 x + (n : ℚ) / 100 := by
  unfold pyRound2
  rw [show (x + (n : ℚ) / 100) * 100 = x * 100 + (n : ℚ) by ring,
    roundHalfEven_add_even _ _ hn]
  push_cast
  ring

theorem pyRound2_add_pair (x v : ℚ) (n : ℤ) (hv : v = (n : ℚ) / 100)
    (hn : n % 2 = 0) : pyRound2 (x + v) = pyRound2 x + pyRound2 v := by
  subst hv
  rw [pyRound2_add_even_cents _ _ hn, pyRound2_cents]

namespace CompanyAgent

theorem evalLT_not_le {a b : EvaluatedOffer} (h : evalLT a b) : ¬ evalLE b a := by
  unfold evalLT at h
  unfold evalLE
  rcases h with h | ⟨h, he⟩ <;> rintro (h2 | ⟨h2, h2e⟩) <;> first
    | exact absurd h2 (not_lt_of_lt h)
    | exact absurd h2 (ne_of_gt h).symm
    | exact absurd h2 (ne_of_lt h)
    | linarith

end CompanyAgent

/-- Every value of the risk penalty (three independent additive flags worth
0.5, 0.3 and 0.2) is an even number of cents. -/
theorem risk_penalty_cents (c p pp : Bool) : ∃ n : ℤ, n % 2 = 0 ∧
    ((if c then (0.5 : ℚ) else 0) + (if p then (0.3 : ℚ) else 0) +
      (if pp then (0.2 : ℚ) else 0)) = (n : ℚ) / 100 := by
  cases c <;> cases p <;> cases pp
  exacts [⟨0, by norm_num⟩, ⟨20, by norm_num⟩, ⟨30, by norm_num⟩,
    ⟨50, by norm_num⟩, ⟨50, by norm_num⟩, ⟨70, by norm_num⟩,
    ⟨80, by norm_num⟩, ⟨100, by norm_num⟩]

/-! ## C3: counter-offer bounds -/

/-- C3 counterexample: the claim that every counter value is clamped into
the bank's [low, high] window fails.  Wells Fargo's code computes
`counter_rate = max(requested_rate, original_rate - 0.5)`, which has no
upper clamp: a requested rate of 100 against an original offer at 6.5 is
granted verbatim (100), far above the window [6.0, 6.5]. -/
theorem wf_counter_rate_not_clamped_above :
    (WellsFargoAgent.generate_counter_offer 100 0 0 0 0
      (some { interest_rate := some 6.5, draw_period_months := some 12,
              repayment_period_months := some 24,
              approved_credit_limit := some 1000000,
              origination_fee := some 5000 })).interest_rate = 100 ∧
    ¬ ((100 : ℚ) ≤ 6.5) := by
  refine ⟨by with_unfolding_all rfl, by norm_num⟩

/-- C3 amended: the counter values are only one-sidedly clamped for the
interest rate and origination fee — `max(requested, original − max
reduction)`, a floor with no upper bound, so any request at or above the
floor (in particular a rate above the original rate) is granted verbatim;
the draw/repayment periods are clamped into the fixed windows [6, 18] and
[12, 30] (Wells Fargo) resp. [6, 21] and [12, 36] (Chase) when a change is
requested; the credit limit is capped above at original + 20 % (Wells
Fargo) resp. + 25 % (Chase) but not bounded below. -/
theorem counter_offer_one_sided_bounds (r d p c f : ℚ) (o : LocOriginalOffer) :
    (o.interest_rate.getD 6.5 - 0.5 ≤
        (WellsFargoAgent.generate_counter_offer r d p c f (some o)).interest_rate) ∧
    (o.interest_rate.getD 6.5 - 0.5 ≤ r →
        (WellsFargoAgent.generate_counter_offer r d p c f (some o)).interest_rate = r) ∧
    (0 < d → 6 ≤ (WellsFargoAgent.generate_counter_offer r d p c f (some o)).draw_period_months ∧
        (WellsFargoAgent.generate_counter_offer r d p c f (some o)).draw_period_months ≤ 18) ∧
    (0 < p → 12 ≤ (WellsFargoAgent.generate_counter_offer r d p c f (some o)).repayment_period_months ∧
        (WellsFargoAgent.generate_counter_offer r d p c f (some o)).repayment_period_months ≤ 30) ∧
    (0 < c → (WellsFargoAgent.generate_counter_offer r d p c f (some o)).approved_credit_limit ≤
          o.approved_credit_limit.getD 1000000 * (1 + 0.2) ∧
        (WellsFargoAgent.generate_counter_offer r d p c f (some o)).approved_credit_limit ≤ c) ∧
    (o.origination_fee.getD 5000 * 0.75 ≤
        (WellsFargoAgent.generate_counter_offer r d p c f (some o)).origination_fee) ∧
    (o.origination_fee.getD 5000 * 0.75 ≤ f →
        (WellsFargoAgent.generate_counter_offer r d p c f (some o)).origination_fee = f) ∧
    (o.interest_rate.getD 6.0 - 0.6 ≤
        (ChaseBankAgent.generate_counter_offer r d p c f (some o)).interest_rate) ∧
    (o.interest_rate.getD 6.0 - 0.6 ≤ r →
        (ChaseBankAgent.generate_counter_offer r d p c f (some o)).interest_rate = r) ∧
    (0 < d → 6 ≤ (ChaseBankAgent.generate_counter_offer r d p c f (some o)).draw_period_months ∧
        (ChaseBankAgent.generate_counter_offer r d p c f (some o)).draw_period_months ≤ 21) ∧
    (0 < p → 12 ≤ (ChaseBankAgent.generate_counter_offer r d p c f (some o)).repayment_period_months ∧
        (ChaseBankAgent.generate_counter_offer r d p c f (some o)).repayment_period_months ≤ 36) ∧
    (0 < c → (ChaseBankAgent.generate_counter_offer r d p c f (some o)).approved_credit_limit ≤
          o.approved_credit_limit.getD 1000000 * (1 + 0.25) ∧
        (ChaseBankAgent.generate_counter_offer r d p c f (some o)).approved_credit_limit ≤ c) ∧
    (o.origination_fee.getD 4000 * 0.65 ≤
        (ChaseBankAgent.generate_counter_offer r d p c f (some o)).origination_fee) := by
  simp only [WellsFargoAgent.generate_counter_offer, ChaseBankAgent.generate_counter_offer]
  refine ⟨?_, ?_, ?_, ?_, ?_, ?_, ?_, ?_, ?_, ?_, ?_, ?_, ?_⟩
  · exact le_max_right _ _
  · intro h
    exact max_eq_left h
  · intro h
    rw [if_pos h]
    exact ⟨le_max_left _ _, max_le (by norm_num) (min_le_left _ _)⟩
  · intro h
    rw [if_pos h]
    exact ⟨le_max_left _ _, max_le (by norm_num) (min_le_left _ _)⟩
  · intro h
    rw [if_pos h]
    constructor
    · refine le_trans (min_le_right _ _) ?_
      ring_nf
      exact le_refl _
    · exact min_le_left _ _
  · refine le_trans (le_of_eq ?_) (le_max_right _ _)
    ring
  · intro h
    refine max_eq_left ?_
    calc o.origination_fee.getD 5000 - o.origination_fee.getD 5000 * 0.25
        = o.origination_fee.getD 5000 * 0.75 := by ring
      _ ≤ f := h
  · exact le_max_right _ _
  · intro h
    exact max_eq_left h
  · intro h
    rw [if_pos h]
    exact ⟨le_max_left _ _, max_le (by norm_num) (min_le_left _ _)⟩
  · intro h
    rw [if_pos h]
    exact ⟨le_max_left _ _, max_le (by norm_num) (min_le_left _ _)⟩
  · intro h
    rw [if_pos h]
    constructor
    · refine le_trans (min_le_right _ _) ?_
      ring_nf
      exact le_refl _
    · exact min_le_left _ _
  · refine le_trans (le_of_eq ?_) (le_max_right _ _)
    ring

/-- C3 amended, witness at a concrete input: requested values
(7, 12, 24, 1100000, 4500) against an explicit original offer. -/
theorem counter_offer_one_sided_bounds_witness :
    ((6.5 : ℚ) - 0.5 ≤ 7) ∧ ((0 : ℚ) < 12) ∧ ((0 : ℚ) < 24) ∧ ((0 : ℚ) < 1100000) ∧
    (WellsFargoAgent.generate_counter_offer 7 12 24 1100000 4500
      (some { interest_rate := some 6.5, draw_period_months := some 12,
              repayment_period_months := some 24,
              approved_credit_limit := some 1000000,
              origination_fee := some 5000 })).interest_rate = 7 := by
  have h := counter_offer_one_sided_bounds 7 12 24 1100000 4500
    { interest_rate := some 6.5, draw_period_months := some 12,
      repayment_period_months := some 24,
      approved_credit_limit := some 1000000,
      origination_fee := some 5000 }
  refine ⟨by norm_num, by norm_num, by norm_num, by norm_num, h.2.1 (by norm_num)⟩

/-! ## C4: "no change requested" sentinel -/

/-- C4 counterexample: a negotiation request with requested interest rate 0
and requested origination fee 0 does not leave those fields at the original
offer's values.  Bank of America's code returns
`max(0, 6.2 − 0.75) = 5.45 ≠ 6.2` for the rate and
`max(0, 4500 − 4500·0.4) = 2700 ≠ 4500` for the fee. -/
theorem boa_zero_request_changes_rate_and_fee :
    (BankOfAmericaAgent.generate_counter_offer 0 0 0 0
      (some { interest_rate := some 6.2, term_months := some 60,
              approved_amount := some 1000000,
              origination_fee := some 4500 })).interest_rate = 5.45 ∧
    (5.45 : ℚ) ≠ 6.2 ∧
    (BankOfAmericaAgent.generate_counter_offer 0 0 0 0
      (some { interest_rate := some 6.2, term_months := some 60,
              approved_amount := some 1000000,
              origination_fee := some 4500 })).origination_fee = 2700 ∧
    (2700 : ℚ) ≠ 4500 := by
  refine ⟨by with_unfolding_all rfl, by norm_num, by with_unfolding_all rfl, by norm_num⟩

/-- C4 amended: the "requested value ≤ 0 means no change" sentinel is
honoured only by the fields guarded with `if requested > 0` — the draw
period, repayment period and credit limit (Wells Fargo) and the term and
amount (Bank of America) —, which then keep the original offer's value.
The interest rate and origination fee are not guarded: with a requested
value ≤ 0 they fall to the policy floor `original − max reduction`
(resp. `original × (1 − max fee fraction)`) instead of the original value,
whenever that floor is nonnegative. -/
theorem sentinel_defaults_amended (r d p c f : ℚ) (o : LocOriginalOffer)
    (t : TermOriginalOffer) :
    (¬ 0 < d → (WellsFargoAgent.generate_counter_offer r d p c f (some o)).draw_period_months =
        o.draw_period_months.getD 12) ∧
    (¬ 0 < p → (WellsFargoAgent.generate_counter_offer r d p c f (some o)).repayment_period_months =
        o.repayment_period_months.getD 24) ∧
    (¬ 0 < c → (WellsFargoAgent.generate_counter_offer r d p c f (some o)).approved_credit_limit =
        o.approved_credit_limit.getD 1000000) ∧
    (r ≤ 0 → 0 ≤ o.interest_rate.getD 6.5 - 0.5 →
        (WellsFargoAgent.generate_counter_offer r d p c f (some o)).interest_rate =
          o.interest_rate.getD 6.5 - 0.5) ∧
    (f ≤ 0 → 0 ≤ o.origination_fee.getD 5000 →
        (WellsFargoAgent.generate_counter_offer r d p c f (some o)).origination_fee =
          o.origination_fee.getD 5000 * 0.75) ∧
    (¬ 0 < d → (BankOfAmericaAgent.generate_counter_offer r d c f (some t)).term_months =
        t.term_months.getD 60) ∧
    (¬ 0 < c → (BankOfAmericaAgent.generate_counter_offer r d c f (some t)).approved_amount =
        t.approved_amount.getD 1000000) ∧
    (r ≤ 0 → 0 ≤ t.interest_rate.getD 6.2 - 0.75 →
        (BankOfAmericaAgent.generate_counter_offer r d c f (some t)).interest_rate =
          t.interest_rate.getD 6.2 - 0.75) ∧
    (f ≤ 0 → 0 ≤ t.origination_fee.getD 4500 →
        (BankOfAmericaAgent.generate_counter_offer r d c f (some t)).origination_fee =
          t.origination_fee.getD 4500 * 0.6) := by
  simp only [WellsFargoAgent.generate_counter_offer,
    BankOfAmericaAgent.generate_counter_offer]
  refine ⟨?_, ?_, ?_, ?_, ?_, ?_, ?_, ?_, ?_⟩
  · intro h
    rw [if_neg h]
  · intro h
    rw [if_neg h]
  · intro h
    rw [if_neg h]
  · intro hr h0
    exact max_eq_right (le_trans hr h0)
  · intro hf h0
    rw [show o.origination_fee.getD 5000 - o.origination_fee.getD 5000 * 0.25 =
      o.origination_fee.getD 5000 * 0.75 by ring]
    refine max_eq_right (le_trans hf ?_)
    positivity
  · intro h
    rw [if_neg h]
  · intro h
    rw [if_neg h]
  · intro hr h0
    exact max_eq_right (le_trans hr h0)
  · intro hf h0
    rw [show t.origination_fee.getD 4500 - t.origination_fee.getD 4500 * 0.4 =
      t.origination_fee.getD 4500 * 0.6 by ring]
    refine max_eq_right (le_trans hf ?_)
    positivity

/-- C4 amended, witness at a concrete input: an all-zero request against an
explicit Wells Fargo original offer keeps the draw period at 12 while the
rate falls to 6.0. -/
theorem sentinel_defaults_amended_witness :
    (¬ (0 : ℚ) < 0) ∧ ((0 : ℚ) ≤ 0) ∧ ((0 : ℚ) ≤ (6.5 : ℚ) - 0.5) ∧
    (WellsFargoAgent.generate_counter_offer 0 0 0 0 0
      (some { interest_rate := some 6.5, draw_period_months := some 12,
              repayment_period_months := some 24,
              approved_credit_limit := some 1000000,
              origination_fee := some 5000 })).draw_period_months = 12 ∧
    (WellsFargoAgent.generate_counter_offer 0 0 0 0 0
      (some { interest_rate := some 6.5, draw_period_months := some 12,
              repayment_period_months := some 24,
              approved_credit_limit := some 1000000,
              origination_fee := some 5000 })).interest_rate = 6.5 - 0.5 := by
  have h := sentinel_defaults_amended 0 0 0 0 0
    { interest_rate := some 6.5, draw_period_months := some 12,
      repayment_period_months := some 24,
      approved_credit_limit := some 1000000,
      origination_fee := some 5000 }
    { interest_rate := some 6.2, term_months := some 60,
      approved_amount := some 1000000, origination_fee := some 4500 }
  refine ⟨by norm_num, by norm_num, by norm_num, ?_, ?_⟩
  · simpa using h.1 (by norm_num)
  · simpa using h.2.2.2.1 (by norm_num) (by norm_num)

/-! ## C9: end-to-end negotiation scenario C -/

/-- C9: a company requesting an interest rate of 4.0 against Bank of
America's policy (max reduction 0.75 points) and an original offer at 6.2
receives a counter-offer at exactly 5.45 = 6.2 − 0.75, not 4.0.  Shown both
for an explicit original offer carrying rate 6.2 and for the code's default
original (also 6.2), and 5.45 ≠ 4.0. -/
theorem boa_scenario_c_counter_rate :
    (BankOfAmericaAgent.generate_counter_offer 4.0 0 0 0
      (some { interest_rate := some 6.2, term_months := some 60,
              approved_amount := some 1000000,
              origination_fee := some 4500 })).interest_rate = 5.45 ∧
    (BankOfAmericaAgent.generate_counter_offer 4.0 0 0 0 none).interest_rate = 5.45 ∧
    (5.45 : ℚ) = 6.2 - 0.75 ∧ (5.45 : ℚ) ≠ 4.0 := by
  refine ⟨by with_unfolding_all rfl, by with_unfolding_all rfl, by norm_num, by norm_num⟩

/-! ## C7: effective rate and composite score -/

/-- C7 counterexample: the code's `effective_rate` does not include the
origination fee.  For an offer with credit limit 1000, origination fee 500
and all other costs zero, the code scores `effective_rate = 0`, while the
spec's fee-inclusive effective rate is 50. -/
theorem effective_rate_excludes_origination_fee :
    (CompanyAgent.scoreOffer
      { approved_credit_limit := some 1000,
        origination_fee := some 500 }).effective_rate = 0 ∧
    specEffectiveRate
      { approved_credit_limit := some 1000, origination_fee := some 500 } = 50 ∧
    (0 : ℚ) ≠ 50 ∧
    (CompanyAgent.scoreOffer
      { approved_credit_limit := some 1000,
        origination_fee := some 500 }).total_cost_of_borrowing = 500 := by
  refine ⟨by with_unfolding_all rfl, by with_unfolding_all rfl, by norm_num,
    by with_unfolding_all rfl⟩

/-- C7 amended: for every offer with positive approved credit limit, the
code's `effective_rate` is the total annual cost EXCLUDING the origination
fee — interest, draw fees and unused-credit fees at the assumed 70 %
utilization — as a percentage of the approved credit limit (rounded to two
decimals); the origination fee enters only `total_cost_of_borrowing`.  The
composite score does equal effective rate plus a risk penalty of 0.5 for
collateral, 0.3 for personal guarantee and 0.2 for prepayment penalty
(additive, independent flags), as claimed. -/
theorem effective_rate_and_composite (o : OfferDict)
    (h : 0 < o.approved_credit_limit.getD 0) :
    (CompanyAgent.scoreOffer o).effective_rate =
      pyRound2 ((o.approved_credit_limit.getD 0 * 0.7 * (o.interest_rate.getD 0 / 100) +
        o.approved_credit_limit.getD 0 * 0.7 * (o.draw_fee_percentage.getD 0 / 100) * 4 +
        o.approved_credit_limit.getD 0 * (1 - 0.7) * (o.unused_credit_fee.getD 0 / 100)) /
          o.approved_credit_limit.getD 0 * 100) ∧
    (CompanyAgent.scoreOffer o).total_cost_of_borrowing =
      pyRound2 (o.approved_credit_limit.getD 0 * 0.7 * (o.interest_rate.getD 0 / 100) +
        o.approved_credit_limit.getD 0 * 0.7 * (o.draw_fee_percentage.getD 0 / 100) * 4 +
        o.approved_credit_limit.getD 0 * (1 - 0.7) * (o.unused_credit_fee.getD 0 / 100) +
        o.origination_fee.getD 0) ∧
    (CompanyAgent.scoreOffer o).composite_score =
      (CompanyAgent.scoreOffer o).effective_rate +
        (CompanyAgent.scoreOffer o).risk_penalty ∧
    (CompanyAgent.scoreOffer o).risk_penalty =
      (if o.collateral_required.getD false then (0.5 : ℚ) else 0) +
      (if o.personal_guarantee_required.getD false then (0.3 : ℚ) else 0) +
      (if o.prepayment_penalty.getD false then (0.2 : ℚ) else 0) := by
  obtain ⟨n, hn, hv⟩ := risk_penalty_cents (o.collateral_required.getD false)
    (o.personal_guarantee_required.getD false) (o.prepayment_penalty.getD false)
  simp only [CompanyAgent.scoreOffer]
  refine ⟨?_, ?_, ?_, ?_⟩
  · rw [if_pos h]
  · trivial
  · rw [hv, pyRound2_add_even_cents _ _ hn, pyRound2_cents]
  · rw [hv, pyRound2_cents]

/-- C7 amended, witness: a concrete offer with limit 1000, rate 10,
origination fee 500 and a collateral requirement. -/
theorem effective_rate_and_composite_witness :
    (0 : ℚ) <
      (OfferDict.approved_credit_limit
        { approved_credit_limit := some 1000, interest_rate := some 10,
          origination_fee := some 500, collateral_required := some true }).getD 0 ∧
    (CompanyAgent.scoreOffer
      { approved_credit_limit := some 1000, interest_rate := some 10,
        origination_fee := some 500, collateral_required := some true }).composite_score =
      (CompanyAgent.scoreOffer
        { approved_credit_limit := some 1000, interest_rate := some 10,
          origination_fee := some 500, collateral_required := some true }).effective_rate +
      (CompanyAgent.scoreOffer
        { approved_credit_limit := some 1000, interest_rate := some 10,
          origination_fee := some 500, collateral_required := some true }).risk_penalty :=
  ⟨by norm_num,
    (effective_rate_and_composite
      { approved_credit_limit := some 1000, interest_rate := some 10,
        origination_fee := some 500, collateral_required := some true }
      (by norm_num)).2.2.1⟩

/-! ## C10: degenerate credit limit -/

/-- C10: an offer whose approved credit limit is 0, or absent (defaulting
to 0), gets effective rate 0 instead of a division by zero; it is still
scored (its composite score is just its risk penalty), it appears in the
evaluated output, no offer is dropped, and the evaluated output is exactly
a permutation of the independently-computed per-offer scores, so the other
offers' evaluations are unaffected. -/
theorem zero_limit_offer_still_scored (o : OfferDict)
    (h : o.approved_credit_limit.getD 0 = 0) :
    (CompanyAgent.scoreOffer o).effective_rate = 0 ∧
    (CompanyAgent.scoreOffer o).composite_score =
      (CompanyAgent.scoreOffer o).risk_penalty ∧
    ∀ l : List OfferDict, o ∈ l →
      CompanyAgent.scoreOffer o ∈ CompanyAgent.evaluate_offers l ∧
      (CompanyAgent.evaluate_offers l).length = l.length ∧
      List.Perm (CompanyAgent.evaluate_offers l) (l.map CompanyAgent.scoreOffer) := by
  have hneg : ¬ o.approved_credit_limit.getD 0 > 0 := by
    rw [h]
    exact lt_irrefl 0
  simp only [CompanyAgent.scoreOffer]
  refine ⟨?_, ?_, ?_⟩
  · rw [if_neg hneg]
    rw [show (0 : ℚ) = ((0 : ℤ) : ℚ) / 100 by norm_num, pyRound2_cents]
  · rw [if_neg hneg, zero_add]
  · intro l hl
    refine ⟨?_, ?_, ?_⟩
    · rw [CompanyAgent.evaluate_offers, List.mem_insertionSort]
      exact List.mem_map_of_mem _ hl
    · rw [CompanyAgent.evaluate_offers, List.length_insertionSort, List.length_map]
    · exact List.perm_insertionSort _ _

/-- C10 witness: a one-offer list whose offer has no credit limit field. -/
theorem zero_limit_offer_still_scored_witness :
    (OfferDict.approved_credit_limit { interest_rate := some 5 }).getD 0 = 0 ∧
    ({ interest_rate := some 5 } : OfferDict) ∈ [({ interest_rate := some 5 } : OfferDict)] ∧
    (CompanyAgent.scoreOffer { interest_rate := some 5 }).effective_rate = 0 ∧
    CompanyAgent.scoreOffer { interest_rate := some 5 } ∈
      CompanyAgent.evaluate_offers [{ interest_rate := some 5 }] := by
  have h := zero_limit_offer_still_scored { interest_rate := some 5 } rfl
  exact ⟨rfl, List.mem_singleton.mpr rfl, h.1,
    (h.2.2 [{ interest_rate := some 5 }] (List.mem_singleton.mpr rfl)).1⟩

/-! ## C5: deterministic ranking -/

/-- C5 counterexample: swapping two offers with different composite scores
CAN change which offer `select_best` returns, when a third offer ties with
one of them.  `offerA` and `offerX` share the sort key (composite 3.5),
`offerB` has composite 7 ≠ 3.5.  On input [A, X, B] the stable sort keeps
A first; swapping A and B (two offers with different composite scores)
gives [B, X, A], on which X — an entirely different offer — wins. -/
theorem select_best_changes_under_swap :
    (CompanyAgent.scoreOffer offerA).composite_score = 3.5 ∧
    (CompanyAgent.scoreOffer offerB).composite_score = 7 ∧
    (3.5 : ℚ) ≠ 7 ∧
    CompanyAgent.select_best_offer (CompanyAgent.evaluate_offers [offerA, offerX, offerB]) =
      some (CompanyAgent.scoreOffer offerA) ∧
    CompanyAgent.select_best_offer (CompanyAgent.evaluate_offers [offerB, offerX, offerA]) =
      some (CompanyAgent.scoreOffer offerX) ∧
    CompanyAgent.scoreOffer offerA ≠ CompanyAgent.scoreOffer offerX := by
  refine ⟨by with_unfolding_all rfl, by with_unfolding_all rfl, by norm_num,
    by with_unfolding_all rfl, by with_unfolding_all rfl, ?_⟩
  intro hax
  have hb : (CompanyAgent.scoreOffer offerA).offer.bank_name =
      (CompanyAgent.scoreOffer offerX).offer.bank_name := by rw [hax]
  rw [show (CompanyAgent.scoreOffer offerA).offer.bank_name = some "Bank A" from rfl,
    show (CompanyAgent.scoreOffer offerX).offer.bank_name = some "Bank X" from rfl] at hb
  exact absurd hb (by decide)

/-- C5 amended: (1) evaluation followed by selection is a pure function of
the offer list, so repeated calls agree; (2) permuting the input — in
particular swapping two offers with different composite scores — does not
change the selected offer PROVIDED the minimal sort key is attained by a
unique score (without that proviso the counterexample applies); (3) two
offers with identical composite score and identical ESG impact score keep
their relative input order in the evaluated output (stable sort). -/
theorem ranking_deterministic_amended :
    (∀ l : List OfferDict,
      CompanyAgent.select_best_offer (CompanyAgent.evaluate_offers l) =
        CompanyAgent.select_best_offer (CompanyAgent.evaluate_offers l)) ∧
    (∀ (l l' : List OfferDict) (x : OfferDict), List.Perm l' l → x ∈ l →
      (∀ y ∈ l, CompanyAgent.scoreOffer y = CompanyAgent.scoreOffer x ∨
        CompanyAgent.evalLT (CompanyAgent.scoreOffer x) (CompanyAgent.scoreOffer y)) →
      CompanyAgent.select_best_offer (CompanyAgent.evaluate_offers l') =
        some (CompanyAgent.scoreOffer x)) ∧
    (∀ (a b : OfferDict) (l₁ l₂ l₃ : List OfferDict),
      (CompanyAgent.scoreOffer a).composite_score =
        (CompanyAgent.scoreOffer b).composite_score →
      (CompanyAgent.scoreOffer a).esg_impact_score =
        (CompanyAgent.scoreOffer b).esg_impact_score →
      List.Sublist [CompanyAgent.scoreOffer a, CompanyAgent.scoreOffer b]
        (CompanyAgent.evaluate_offers (l₁ ++ a :: (l₂ ++ b :: l₃)))) := by
  refine ⟨fun l => rfl, ?_, ?_⟩
  · intro l l' x hperm hx hmin
    have hsp : List.Perm
        (List.insertionSort CompanyAgent.evalLE (l'.map CompanyAgent.scoreOffer))
        (l.map CompanyAgent.scoreOffer) :=
      (List.perm_insertionSort _ _).trans (hperm.map _)
    have hsorted := List.sorted_insertionSort CompanyAgent.evalLE
      (l'.map CompanyAgent.scoreOffer)
    have hmem : CompanyAgent.scoreOffer x ∈
        List.insertionSort CompanyAgent.evalLE (l'.map CompanyAgent.scoreOffer) :=
      hsp.mem_iff.mpr (List.mem_map_of_mem _ hx)
    rw [CompanyAgent.select_best_offer, CompanyAgent.evaluate_offers]
    cases hs : List.insertionSort CompanyAgent.evalLE (l'.map CompanyAgent.scoreOffer) with
    | nil =>
      rw [hs] at hmem
      cases hmem
    | cons hd tl =>
      rw [hs] at hsp hsorted hmem
      have hhd : hd ∈ l.map CompanyAgent.scoreOffer :=
        hsp.subset (List.mem_cons_self _ _)
      obtain ⟨y, hy, hyx⟩ := List.mem_map.mp hhd
      simp only [List.head?_cons, Option.some.injEq]
      rcases hmin y hy with heq | hlt
      · rw [← hyx, heq]
      · rcases List.mem_cons.mp hmem with hxh | hxt
        · exact hxh.symm
        · have hle : CompanyAgent.evalLE hd (CompanyAgent.scoreOffer x) :=
            (List.sorted_cons.mp hsorted).1 _ hxt
          rw [← hyx] at hle
          exact absurd hle (CompanyAgent.evalLT_not_le hlt)
  · intro a b l₁ l₂ l₃ hc he
    have hab : CompanyAgent.evalLE (CompanyAgent.scoreOffer a) (CompanyAgent.scoreOffer b) :=
      Or.inr ⟨hc, le_of_eq he.symm⟩
    rw [CompanyAgent.evaluate_offers]
    refine List.pair_sublist_insertionSort hab ?_
    rw [List.map_append, List.map_cons, List.map_append, List.map_cons]
    refine List.Sublist.trans ?_ (List.sublist_append_right _ _)
    refine List.Sublist.cons₂ _ ?_
    refine List.Sublist.trans ?_ (List.sublist_append_right _ _)
    exact List.Sublist.cons₂ _ (List.nil_sublist _)

/-- C5 amended, witness: on the two-offer list [A, B] with distinct
composite scores (3.5 and 7), the swap [B, A] still selects A's score. -/
theorem ranking_deterministic_amended_witness :
    List.Perm [offerB, offerA] [offerA, offerB] ∧ offerA ∈ [offerA, offerB] ∧
    CompanyAgent.select_best_offer (CompanyAgent.evaluate_offers [offerB, offerA]) =
      some (CompanyAgent.scoreOffer offerA) := by
  refine ⟨List.Perm.swap offerA offerB [], List.mem_cons_self _ _, ?_⟩
  refine ranking_deterministic_amended.2.1 [offerA, offerB] [offerB, offerA] offerA
    (List.Perm.swap offerA offerB []) (List.mem_cons_self _ _) ?_
  intro y hy
  rcases List.mem_cons.mp hy with rfl | hy2
  · exact Or.inl rfl
  · rcases List.mem_singleton.mp hy2 with rfl
    refine Or.inr (Or.inl ?_)
    rw [show (CompanyAgent.scoreOffer offerA).composite_score = 3.5 from by with_unfolding_all rfl,
      show (CompanyAgent.scoreOffer offerB).composite_score = 7 from by with_unfolding_all rfl]
    norm_num

/-! ## C2: signature round-trip -/

/-- C2: for every payload P and secret S, validating the signature
produced by signing P under S succeeds; and any signature string other
than the one signing produces is rejected.  (`validate_signature`
recomputes the expected signature with the same deterministic
serialization and compares with `hmac.compare_digest`, a constant-time
string equality.) -/
theorem signature_roundtrip :
    (∀ (P : Json) (S : String),
      SignatureUtils.validate_signature P (SignatureUtils.generate_signature P S) S = true) ∧
    (∀ (P : Json) (S sig : String), sig ≠ SignatureUtils.generate_signature P S →
      SignatureUtils.validate_signature P sig S = false) := by
  constructor
  · intro P S
    unfold SignatureUtils.validate_signature
    exact beq_self_eq_true _
  · intro P S sig hne
    unfold SignatureUtils.validate_signature
    exact beq_eq_false_iff_ne.mpr hne

/-- C2 witness: the empty string is not the signature of the empty payload
under secret "k" (the real signature, computed through the embedded
HMAC-SHA256 pipeline, is 44 base64 characters), and validation rejects
it. -/
theorem signature_roundtrip_witness :
    ("" ≠ SignatureUtils.generate_signature (Json.obj []) "k") ∧
    SignatureUtils.validate_signature (Json.obj []) "" "k" = false :=
  ⟨by decide, signature_roundtrip.2 (Json.obj []) "k" "" (by decide)⟩

/-! ## C1: fail-closed authentication -/

/-- C1: for every inbound message (not addressed to the out-of-band
`/auth/` endpoints) on which authentication extraction fails — token
missing, malformed, failing validation, or a client-id mismatch —
`execute` terminates with the authentication error, contacts no bank
endpoint, and appends nothing to the audit log: classification, routing
and aggregation never run. -/
theorem auth_failure_fail_closed (env : BrokerEnv) (user_input : String)
    (wrap : Json → String → Json)
    (h1 : strStartsWith user_input "/auth/" = false)
    (h2 : extract_auth_from_message env.validate_token user_input = none) :
    execute env user_input wrap =
      { outcome := .auth_error "Missing or invalid authentication token",
        contacted := [], audit := [] } := by
  unfold execute
  rw [h1, h2]
  rfl

/-- C1 witness: a syntactically valid JSON message with no `auth_token`
field, against a validator that rejects everything, is refused without any
bank contact. -/
theorem auth_failure_fail_closed_witness :
    strStartsWith "{}" "/auth/" = false ∧
    extract_auth_from_message
      (BrokerEnv.validate_token ⟨fun _ => none, fun _ _ => PostResult.exn "down", "t0", "tok"⟩)
      "{}" = none ∧
    (execute ⟨fun _ => none, fun _ _ => PostResult.exn "down", "t0", "tok"⟩ "{}"
      (fun j _ => j)).contacted = [] := by
  refine ⟨rfl, rfl, ?_⟩
  rw [auth_failure_fail_closed ⟨fun _ => none, fun _ _ => PostResult.exn "down", "t0", "tok"⟩
    "{}" (fun j _ => j) rfl rfl]

/-! ## C8: targeted negotiation routing -/

/-- In the known-endpoint branch, the POST target set is empty (payload
parse failure) or exactly the resolved endpoint. -/
theorem negotiation_attempt_contacted (env : BrokerEnv)
    (endpoint bank_name msg : String) (auth : Option AuthPayload)
    (wrap : Json → String → Json) :
    (negotiation_attempt env endpoint bank_name msg auth wrap).contacted = [] ∨
    (negotiation_attempt env endpoint bank_name msg auth wrap).contacted = [endpoint] := by
  unfold negotiation_attempt
  cases hd : (if msg = "" then some (Json.obj []) else parseJson msg : Option Json) with
  | none => exact Or.inl rfl
  | some data =>
    dsimp only
    cases hp : env.post endpoint
        (wrap (authenticated_message env
          (if auth.isSome then some env.broker_token else none)
          "negotiation_request" data bank_name) bank_name) with
    | resp code body => exact Or.inr rfl
    | exn e => exact Or.inr rfl

/-- C8: a negotiation whose bank name does not resolve against the
endpoint table returns a routing error naming that bank, with no POST
attempted and no audit append; and every endpoint that is POSTed to is the
unique resolution of the name (at most one endpoint is ever contacted). -/
theorem negotiation_routing_fail_fast (env : BrokerEnv) (msg bank_name : String)
    (auth : Option AuthPayload) (wrap : Json → String → Json) :
    (resolve_bank_endpoint bank_name = none →
      route_negotiation_to_bank env msg bank_name auth wrap =
        { responses := [⟨bank_name, "error", none, some ("Unknown bank: " ++ bank_name)⟩],
          contacted := [], audit := [] }) ∧
    (∀ e ∈ (route_negotiation_to_bank env msg bank_name auth wrap).contacted,
      resolve_bank_endpoint bank_name = some e) ∧
    (route_negotiation_to_bank env msg bank_name auth wrap).contacted.length ≤ 1 := by
  unfold route_negotiation_to_bank
  cases h : resolve_bank_endpoint bank_name with
  | none =>
    refine ⟨fun _ => rfl, ?_, ?_⟩
    · intro e he
      cases he
    · exact Nat.zero_le 1
  | some endpoint =>
    rcases negotiation_attempt_contacted env endpoint bank_name msg auth wrap with hc | hc
    · refine ⟨fun hnone => Option.noConfusion hnone, ?_, ?_⟩
      · intro e he
        rw [hc] at he
        cases he
      · rw [hc]
        exact Nat.zero_le 1
    · refine ⟨fun hnone => Option.noConfusion hnone, ?_, ?_⟩
      · intro e he
        rw [hc] at he
        rcases List.mem_singleton.mp he with rfl
        rfl
      · rw [hc]
        exact le_refl 1

/-- C8 witness: the unregistered name "acme-bank" yields the routing error
naming it, with an empty contact list. -/
theorem negotiation_routing_fail_fast_witness :
    resolve_bank_endpoint "acme-bank" = none ∧
    (route_negotiation_to_bank
      ⟨fun _ => none, fun _ _ => PostResult.exn "down", "t0", "tok"⟩ "{}" "acme-bank"
      none (fun j _ => j)).contacted = [] ∧
    (route_negotiation_to_bank
      ⟨fun _ => none, fun _ _ => PostResult.exn "down", "t0", "tok"⟩ "{}" "acme-bank"
      none (fun j _ => j)).responses =
      [⟨"acme-bank", "error", none, some ("Unknown bank: " ++ "acme-bank")⟩] := by
  have h := (negotiation_routing_fail_fast
    ⟨fun _ => none, fun _ _ => PostResult.exn "down", "t0", "tok"⟩ "{}" "acme-bank"
    none (fun j _ => j)).1 rfl
  exact ⟨rfl, congrArg RouteOutcome.contacted h, congrArg RouteOutcome.responses h⟩

/-! ## C6: broadcast completeness -/

/-- Classification of a single decoded text part. -/
theorem classifyParts_single (b s : String) :
    classifyParts b [Json.obj [("kind", Json.str "text"), ("text", Json.str s)]] =
      match parseJson s with
      | some j => ([j], [])
      | none => ([], [(b, s)]) := rfl

/-- The three bucket contributions of a single rendered reply. -/
theorem entryContribution_replyEntry (c : BankReplyCase) :
    entryContribution (replyEntry c) =
      match c with
      | .offer b s =>
        (match parseJson s with
         | some j => ([j], [], [])
         | none => ([], [(b, s)], []))
      | .clarification b s =>
        (match parseJson s with
         | some j => ([j], [], [])
         | none => ([], [(b, s)], []))
      | .failure b e => ([], [], [(b, e)]) := by
  cases c with
  | offer b s =>
    have h1 : entryContribution (replyEntry (.offer b s)) =
        ((classifyParts b [Json.obj [("kind", Json.str "text"), ("text", Json.str s)]]).1,
         (classifyParts b [Json.obj [("kind", Json.str "text"), ("text", Json.str s)]]).2,
         []) := rfl
    rw [h1, classifyParts_single]
    dsimp only
    cases parseJson s <;> rfl
  | clarification b s =>
    have h1 : entryContribution (replyEntry (.clarification b s)) =
        ((classifyParts b [Json.obj [("kind", Json.str "text"), ("text", Json.str s)]]).1,
         (classifyParts b [Json.obj [("kind", Json.str "text"), ("text", Json.str s)]]).2,
         []) := rfl
    rw [h1, classifyParts_single]
    dsimp only
    cases parseJson s <;> rfl
  | failure b e => rfl

theorem aggregate_core_counts (cases : List BankReplyCase)
    (hok : ∀ c ∈ cases, replyOk c) :
    (aggregate_core (cases.map replyEntry)).1.length = cases.countP isOfferReply ∧
    (aggregate_core (cases.map replyEntry)).2.1.length =
      cases.countP isClarificationReply ∧
    (aggregate_core (cases.map replyEntry)).2.2.length = cases.countP isFailureReply := by
  induction cases with
  | nil => exact ⟨rfl, rfl, rfl⟩
  | cons c cs ih =>
    obtain ⟨ih1, ih2, ih3⟩ := ih (fun x hx => hok x (List.mem_cons_of_mem _ hx))
    have hc := hok c (List.mem_cons_self _ _)
    cases c with
    | offer b s =>
      obtain ⟨j, hj⟩ := Option.isSome_iff_exists.mp hc
      simp [List.map_cons, aggregate_core, entryContribution_replyEntry, hj,
        List.length_append, List.countP_cons, isOfferReply, isClarificationReply,
        isFailureReply, ih1, ih2, ih3]
    | clarification b s =>
      have hj : parseJson s = none := hc
      simp [List.map_cons, aggregate_core, entryContribution_replyEntry, hj,
        List.length_append, List.countP_cons, isOfferReply, isClarificationReply,
        isFailureReply, ih1, ih2, ih3]
    | failure b e =>
      simp [List.map_cons, aggregate_core, entryContribution_replyEntry,
        List.length_append, List.countP_cons, isOfferReply, isClarificationReply,
        isFailureReply, ih1, ih2, ih3]

/-- Every reply case is exactly one of the three kinds. -/
theorem replyCase_count_partition (l : List BankReplyCase) :
    l.countP isOfferReply + l.countP isClarificationReply +
      l.countP isFailureReply = l.length := by
  induction l with
  | nil => rfl
  | cons c cs ih =>
    cases c <;>
      simp [List.countP_cons, List.length_cons, isOfferReply,
        isClarificationReply, isFailureReply] <;>
      omega

/-- C6: in a broadcast round whose N endpoint outcomes are K parseable
structured offers, M non-parseable free-text replies and E transport/HTTP
errors, the aggregate holds exactly K offers, M text responses and E
errors (K+M+E = N), with the bookkeeping totals matching; and the bucket
sizes are invariant under permuting the responses, i.e. independent of
completion order. -/
theorem broadcast_bucket_counts (cases : List BankReplyCase)
    (hok : ∀ c ∈ cases, replyOk c) :
    (aggregate_responses (cases.map replyEntry)).offers.length =
      cases.countP isOfferReply ∧
    (aggregate_responses (cases.map replyEntry)).text_responses.length =
      cases.countP isClarificationReply ∧
    (aggregate_responses (cases.map replyEntry)).errors.length =
      cases.countP isFailureReply ∧
    (aggregate_responses (cases.map replyEntry)).total_banks = cases.length ∧
    (aggregate_responses (cases.map replyEntry)).offers.length +
      (aggregate_responses (cases.map replyEntry)).text_responses.length +
      (aggregate_responses (cases.map replyEntry)).errors.length = cases.length ∧
    ∀ cases2 : List BankReplyCase, List.Perm cases2 cases →
      (aggregate_responses (cases2.map replyEntry)).offers.length =
        cases.countP isOfferReply ∧
      (aggregate_responses (cases2.map replyEntry)).text_responses.length =
        cases.countP isClarificationReply ∧
      (aggregate_responses (cases2.map replyEntry)).errors.length =
        cases.countP isFailureReply := by
  obtain ⟨h1, h2, h3⟩ := aggregate_core_counts cases hok
  have hagg : ∀ l : List BankResponseEntry,
      (aggregate_responses l).offers = (aggregate_core l).1 ∧
      (aggregate_responses l).text_responses = (aggregate_core l).2.1 ∧
      (aggregate_responses l).errors = (aggregate_core l).2.2 ∧
      (aggregate_responses l).total_banks = l.length := by
    intro l
    unfold aggregate_responses
    exact ⟨rfl, rfl, rfl, rfl⟩
  obtain ⟨ha, hb, hcc, hd⟩ := hagg (cases.map replyEntry)
  have hsum := replyCase_count_partition cases
  refine ⟨ha ▸ h1, hb ▸ h2, hcc ▸ h3, by rw [hd, List.length_map], ?_, ?_⟩
  · rw [ha, hb, hcc, h1, h2, h3]
    exact hsum
  · intro cases2 hperm
    have hok2 : ∀ c ∈ cases2, replyOk c := fun c hcm => hok c (hperm.mem_iff.mp hcm)
    obtain ⟨g1, g2, g3⟩ := aggregate_core_counts cases2 hok2
    obtain ⟨ka, kb, kc, _⟩ := hagg (cases2.map replyEntry)
    refine ⟨?_, ?_, ?_⟩
    · rw [ka, g1, hperm.countP_eq]
    · rw [kb, g2, hperm.countP_eq]
    · rw [kc, g3, hperm.countP_eq]

/-- C6 witness: one offer, one free-text reply and one failed endpoint
aggregate to exactly one entry per bucket, through the full decoded
JSON-RPC reply shape. -/
theorem broadcast_bucket_counts_witness :
    (∀ c ∈ [BankReplyCase.offer "wells-fargo" "\x7b\"offer_id\": \"WF-1\"\x7d",
            BankReplyCase.clarification "bank-of-america" "please clarify your revenue",
            BankReplyCase.failure "chase-bank" "HTTP 500"], replyOk c) ∧
    (aggregate_responses
      ([BankReplyCase.offer "wells-fargo" "\x7b\"offer_id\": \"WF-1\"\x7d",
        BankReplyCase.clarification "bank-of-america" "please clarify your revenue",
        BankReplyCase.failure "chase-bank" "HTTP 500"].map replyEntry)).offers.length = 1 ∧
    (aggregate_responses
      ([BankReplyCase.offer "wells-fargo" "\x7b\"offer_id\": \"WF-1\"\x7d",
        BankReplyCase.clarification "bank-of-america" "please clarify your revenue",
        BankReplyCase.failure "chase-bank" "HTTP 500"].map replyEntry)).text_responses.length = 1 ∧
    (aggregate_responses
      ([BankReplyCase.offer "wells-fargo" "\x7b\"offer_id\": \"WF-1\"\x7d",
        BankReplyCase.clarification "bank-of-america" "please clarify your revenue",
        BankReplyCase.failure "chase-bank" "HTTP 500"].map replyEntry)).errors.length = 1 := by
  have hok : ∀ c ∈ [BankReplyCase.offer "wells-fargo" "\x7b\"offer_id\": \"WF-1\"\x7d",
      BankReplyCase.clarification "bank-of-america" "please clarify your revenue",
      BankReplyCase.failure "chase-bank" "HTTP 500"], replyOk c := by
    intro c hcm
    rcases List.mem_cons.mp hcm with rfl | hcm2
    · exact rfl
    rcases List.mem_cons.mp hcm2 with rfl | hcm3
    · exact rfl
    rcases List.mem_cons.mp hcm3 with rfl | hcm4
    · exact trivial
    · cases hcm4
  have h := broadcast_bucket_counts _ hok
  exact ⟨hok, h.1.trans rfl, h.2.1.trans rfl, h.2.2.1.trans rfl⟩

end WFAP
